import Mathlib

/-!
# Verification of the Solar_Module_Test analysis scripts

A shallow embedding of the data-analysis core of the repository
(`analysis/final_report_generator.py`, `analysis/gnss_power_analysis.py`,
`analysis/power_comparison_analysis.py`) together with proofs settling the
frozen claims about its specification.

The Python scripts compute over IEEE-754 double-precision values produced by
pandas.  We model those values with the type `PF` below: a rational number,
one of the two infinities, or NaN.  Rational arithmetic stands in for float
arithmetic (no rounding is modelled; every claim is about exact identities,
signs and zero tests, which rounding does not disturb on the inputs used).
Pandas reductions (`sum`, `mean`, `max`, `corr`) skip NaN entries; the
corresponding operations `psum`, `pmean`, `pmax`, `pcorr` do the same.
-/

/-- A pandas/NumPy floating-point value: finite rational, plus or minus
infinity, or NaN.  (`float('inf')` in the scripts becomes `PF.pinf`,
`errors='coerce'` failures become `PF.nan`.) -/
inductive PF where
  | fin : ℚ → PF
  | pinf : PF
  | ninf : PF
  | nan : PF
deriving DecidableEq, Repr

/-- IEEE negation. -/
def PF.neg : PF → PF
  | .fin a => .fin (-a)
  | .pinf => .ninf
  | .ninf => .pinf
  | .nan => .nan

/-- IEEE addition (NaN propagates; opposite infinities give NaN). -/
def PF.add : PF → PF → PF
  | .nan, _ => .nan
  | _, .nan => .nan
  | .fin a, .fin b => .fin (a + b)
  | .fin _, .pinf => .pinf
  | .fin _, .ninf => .ninf
  | .pinf, .fin _ => .pinf
  | .ninf, .fin _ => .ninf
  | .pinf, .pinf => .pinf
  | .ninf, .ninf => .ninf
  | .pinf, .ninf => .nan
  | .ninf, .pinf => .nan

/-- IEEE subtraction. -/
def PF.sub (x y : PF) : PF := x.add y.neg

/-- IEEE multiplication (infinity times zero is NaN). -/
def PF.mul : PF → PF → PF
  | .nan, _ => .nan
  | _, .nan => .nan
  | .fin a, .fin b => .fin (a * b)
  | .fin a, .pinf => if 0 < a then .pinf else if a < 0 then .ninf else .nan
  | .fin a, .ninf => if 0 < a then .ninf else if a < 0 then .pinf else .nan
  | .pinf, .fin b => if 0 < b then .pinf else if b < 0 then .ninf else .nan
  | .ninf, .fin b => if 0 < b then .ninf else if b < 0 then .pinf else .nan
  | .pinf, .pinf => .pinf
  | .pinf, .ninf => .ninf
  | .ninf, .pinf => .ninf
  | .ninf, .ninf => .pinf

/-- IEEE/NumPy division: a nonzero finite number divided by zero gives a
signed infinity (NumPy emits a warning but returns the infinity), zero
divided by zero gives NaN. -/
def PF.div : PF → PF → PF
  | .nan, _ => .nan
  | _, .nan => .nan
  | .fin a, .fin b =>
      if b = 0 then (if 0 < a then .pinf else if a < 0 then .ninf else .nan)
      else .fin (a / b)
  | .fin _, .pinf => .fin 0
  | .fin _, .ninf => .fin 0
  | .pinf, .fin b => if 0 ≤ b then .pinf else .ninf
  | .ninf, .fin b => if 0 ≤ b then .ninf else .pinf
  | .pinf, .pinf => .nan
  | .pinf, .ninf => .nan
  | .ninf, .pinf => .nan
  | .ninf, .ninf => .nan

/-- IEEE absolute value. -/
def PF.abs : PF → PF
  | .fin a => .fin |a|
  | .pinf => .pinf
  | .ninf => .pinf
  | .nan => .nan

/-- IEEE strict less-than (any comparison with NaN is false). -/
def PF.blt : PF → PF → Bool
  | .nan, _ => false
  | _, .nan => false
  | .fin a, .fin b => decide (a < b)
  | .fin _, .pinf => true
  | .fin _, .ninf => false
  | .pinf, _ => false
  | .ninf, .ninf => false
  | .ninf, _ => true

/-- IEEE equality test (NaN is equal to nothing, including itself); this is
what Python `==` / `!=` on floats compute. -/
def PF.eqb : PF → PF → Bool
  | .fin a, .fin b => decide (a = b)
  | .pinf, .pinf => true
  | .ninf, .ninf => true
  | _, _ => false

/-- Is the value a finite number? -/
def PF.isFinite : PF → Bool
  | .fin _ => true
  | _ => false

/-- Is the value NaN? -/
def PF.isNan : PF → Bool
  | .nan => true
  | _ => false

/-- The rational carried by a finite value (0 otherwise). -/
def PF.toRat : PF → ℚ
  | .fin q => q
  | _ => 0

/-- The non-NaN entries of a column, in order (pandas reductions skip NaN). -/
def notNan (l : List PF) : List PF := l.filter (fun x => !x.isNan)

/-- pandas `Series.sum()`: sum of the non-NaN entries, 0 for an empty or
all-NaN column. -/
def psum (l : List PF) : PF := (notNan l).foldl PF.add (.fin 0)

/-- Number of non-NaN entries. -/
def pcount (l : List PF) : Nat := (notNan l).length

/-- pandas `Series.mean()`: NaN when there is no non-NaN entry. -/
def pmean (l : List PF) : PF :=
  if pcount l = 0 then .nan else PF.div (psum l) (.fin (pcount l))

/-- pandas `Series.max()`: maximum of the non-NaN entries, NaN if none. -/
def pmax (l : List PF) : PF :=
  match notNan l with
  | [] => .nan
  | x :: xs => xs.foldl (fun a b => if a.blt b then b else a) x

/-- pandas `Series.min()`: minimum of the non-NaN entries, NaN if none. -/
def pmin (l : List PF) : PF :=
  match notNan l with
  | [] => .nan
  | x :: xs => xs.foldl (fun a b => if b.blt a then b else a) x

/-- Deviations from the mean of a list of rationals. -/
def devs (l : List ℚ) : List ℚ :=
  l.map (fun x => x - l.sum / l.length)

/-- Dot product of two rational lists. -/
def dot (a b : List ℚ) : ℚ := ((a.zip b).map (fun p => p.1 * p.2)).sum

/-- pandas `Series.corr` (Pearson): pairs with a NaN on either side are
dropped; the result is NaN when fewer than 2 pairs remain or either series
has zero variance.  The value is `cov / sqrt(varx * vary)`; `Rat.sqrt` is the
exact square root whenever `varx * vary` is a perfect square of a rational
(which holds in every instance proved in this file, where the two series are
equal), and the floor square root otherwise - a stated modelling limit for
irrational intermediate values, which no claim touches.  A pair containing an
infinity also yields NaN (in NumPy the covariance formula on an infinite
entry produces NaN). -/
def pcorr (xs ys : List PF) : PF :=
  let ps := (xs.zip ys).filter (fun p => !p.1.isNan && !p.2.isNan)
  if ps.any (fun p => !p.1.isFinite || !p.2.isFinite) then .nan
  else if ps.length < 2 then .nan
  else
    let a := ps.map (fun p => p.1.toRat)
    let b := ps.map (fun p => p.2.toRat)
    let sxy := dot (devs a) (devs b)
    let sxx := dot (devs a) (devs a)
    let syy := dot (devs b) (devs b)
    if sxx = 0 ∨ syy = 0 then .nan
    else .fin (sxy / Rat.sqrt (sxx * syy))

/-!
## Frame-level model of `clean_and_load_data` (final_report_generator.py)

`pd.read_csv` yields a table of raw cells; `pd.to_numeric(..., errors='coerce')`
turns every cell of the selected columns that does not parse as a number into
NaN.  We model a raw cell as either a parsed number (`Cell.num`), a piece of
text that does not parse as a number (`Cell.str`), or an already-missing value
(`Cell.nan`).
-/

/-- A raw CSV cell. -/
inductive Cell where
  | num : ℚ → Cell
  | str : String → Cell
  | nan : Cell
deriving DecidableEq, Repr

/-- A loaded table: header row plus data rows (row-major, as pandas exposes
them through column labels). -/
structure Frame where
  header : List String
  rows : List (List Cell)
deriving DecidableEq, Repr

/-- Is `sub` a contiguous substring of the character list? -/
def hasSubstrList (sub : List Char) : List Char → Bool
  | [] => sub.isEmpty
  | c :: t => sub.isPrefixOf (c :: t) || hasSubstrList sub t

/-- Python `x in col_name` on strings. -/
def strHasSubstr (s sub : String) : Bool := hasSubstrList sub.toList s.toList

/-- The cell of `row` in the column named `n` (NaN when the column is
absent or the row is short). -/
def cellAt (header : List String) (row : List Cell) (n : String) : Cell :=
  match header.findIdx? (fun m => m == n) with
  | some i => row.getD i .nan
  | none => .nan

/-- The column named `n` of a frame. -/
def getCol (f : Frame) (n : String) : List Cell :=
  f.rows.map (fun r => cellAt f.header r n)

/-- pandas `df[n] = values`: overwrite the column in place if it exists,
otherwise append it on the right. -/
def setCol (f : Frame) (n : String) (vs : List Cell) : Frame :=
  match f.header.findIdx? (fun m => m == n) with
  | some i => ⟨f.header, (f.rows.zip vs).map (fun p => p.1.set i p.2)⟩
  | none => ⟨f.header ++ [n], (f.rows.zip vs).map (fun p => p.1 ++ [p.2])⟩

/-- `NEW_COLUMN_NAMES`: the 15-column dual-sensor layout. -/
def NEW_COLUMN_NAMES : List String :=
  ["TestRunID", "TestState", "EntryTimestamp_ms",
   "Batt_Voltage_V", "Batt_Current_mA", "Batt_Power_mW", "Batt_Energy_J", "Batt_Charge_C", "Batt_Diagnostic",
   "Load_Voltage_V", "Load_Current_mA", "Load_Power_mW", "Load_Energy_J", "Load_Charge_C", "Load_Diagnostic"]

/-- Header of the legacy 6-column format. -/
def OLD_COLUMN_NAMES : List String :=
  ["TestRunID", "TestState", "EntryTimestamp_ms", "Voltage_V", "Current_mA", "Power_mW"]

/-- `old_to_new_mapping` from `clean_and_load_data`, as the function
`df.rename` applies to each column name. -/
def old_to_new_mapping (n : String) : String :=
  if n = "Voltage_V" then "Batt_Voltage_V"
  else if n = "Current_mA" then "Batt_Current_mA"
  else if n = "Power_mW" then "Batt_Power_mW"
  else n

/-- The old-format branch of `clean_and_load_data` (lines 84-110): rename the
three measurement columns to the battery channel, fill the accumulator and
diagnostic columns with the scalar 0, and copy the battery readings into the
load channel columns. -/
def convertOldFormat (f : Frame) : Frame :=
  let g : Frame := ⟨f.header.map old_to_new_mapping, f.rows⟩
  let n := g.rows.length
  let g := setCol g "Batt_Energy_J" (List.replicate n (.num 0))
  let g := setCol g "Batt_Charge_C" (List.replicate n (.num 0))
  let g := setCol g "Batt_Diagnostic" (List.replicate n (.num 0))
  let g := setCol g "Load_Voltage_V" (getCol g "Batt_Voltage_V")
  let g := setCol g "Load_Current_mA" (getCol g "Batt_Current_mA")
  let g := setCol g "Load_Power_mW" (getCol g "Batt_Power_mW")
  let g := setCol g "Load_Energy_J" (List.replicate n (.num 0))
  let g := setCol g "Load_Charge_C" (List.replicate n (.num 0))
  let g := setCol g "Load_Diagnostic" (List.replicate n (.num 0))
  g

/-- The substrings that select the columns coerced to numeric. -/
def numericSubstrings : List String := ["Voltage", "Current", "Power", "Energy", "Charge"]

/-- Does the column name name a numeric column? -/
def isNumericColName (n : String) : Bool :=
  numericSubstrings.any (fun s => strHasSubstr n s)

/-- `pd.to_numeric(col, errors='coerce')` on one cell. -/
def coerceCell : Cell → Cell
  | .num q => .num q
  | _ => .nan

/-- Numeric coercion of one row against its header. -/
def coerceRow (header : List String) (r : List Cell) : List Cell :=
  (header.zip r).map (fun p => if isNumericColName p.1 then coerceCell p.2 else p.2)

/-- Numeric coercion of all numeric-named columns (lines 119-122). -/
def coerceNumeric (f : Frame) : Frame :=
  ⟨f.header, f.rows.map (coerceRow f.header)⟩

/-- Did the cell parse as a number? -/
def Cell.isNum : Cell → Bool
  | .num _ => true
  | _ => false

/-- Does the name contain both "Power" and "mW" (the fallback search)? -/
def isPowerMWName (n : String) : Bool :=
  strHasSubstr n "Power" && strHasSubstr n "mW"

/-- `df.dropna(subset=[n])`: drop the rows whose cell in column `n` is NaN. -/
def dropnaSubset (f : Frame) (n : String) : Frame :=
  ⟨f.header, f.rows.filter (fun r => decide (cellAt f.header r n ≠ Cell.nan))⟩

/-- Lines 124-139: drop rows with invalid power data.  Only a battery power
column (or, as fallback, the first column containing "Power" and "mW") is
consulted; when no power column exists at all the code prints an error
message and leaves the frame untouched. -/
def dropInvalidPower (f : Frame) : Frame :=
  if f.header.contains "Battery_Power_mW" then dropnaSubset f "Battery_Power_mW"
  else if f.header.contains "Batt_Power_mW" then dropnaSubset f "Batt_Power_mW"
  else
    match (f.header.filter isPowerMWName).head? with
    | some c => dropnaSubset f c
    | none => f

/-- The error taxonomy the specification prescribes for the loader.  The
implementation never constructs it: `clean_and_load_data` always returns a
frame (after the missing-file check, which is outside this model). -/
inductive LoadError where
  | schemaUnrecognized : LoadError
deriving DecidableEq, Repr

/-- `clean_and_load_data` (lines 69-142) without the file-existence check and
console output: detect the 6-column legacy format and convert it, coerce the
numeric columns, drop rows with missing battery power.  The result type is
`Except` to express the specified failure mode; the code has no failing
path. -/
def clean_and_load_data (f : Frame) : Except LoadError Frame :=
  let f := if f.header.length = 6 then convertOldFormat f else f
  let f := coerceNumeric f
  .ok (dropInvalidPower f)

/-!
## Record-level model of the analysis functions

After loading, the analysis functions of `final_report_generator.py` read the
frame only through its 15 canonical columns; a row is one record `R`.
`EntryTimestamp_ms` is read straight from the CSV (it is not in the
numerically-coerced column set), so it is modelled as a rational.  The
diagnostic columns are carried but never read by any analysis function.
-/

/-- One canonical dual-sensor row. -/
structure R where
  TestRunID : String
  TestState : String
  EntryTimestamp_ms : ℚ
  Batt_Voltage_V : PF
  Batt_Current_mA : PF
  Batt_Power_mW : PF
  Batt_Energy_J : PF
  Batt_Charge_C : PF
  Batt_Diagnostic : ℚ
  Load_Voltage_V : PF
  Load_Current_mA : PF
  Load_Power_mW : PF
  Load_Energy_J : PF
  Load_Charge_C : PF
  Load_Diagnostic : ℚ
deriving DecidableEq, Repr

/-- Fallback record for `headD`/`getLastD` (never reached on the nonempty
lists the analysis functions build). -/
def defaultR : R :=
  ⟨"", "", 0, .nan, .nan, .nan, .nan, .nan, 0, .nan, .nan, .nan, .nan, .nan, 0⟩

/-- `df['TestState'].unique()`: the distinct state labels in first-occurrence
order. -/
def uniqueStates (df : List R) : List String :=
  df.foldl (fun acc r => if acc.contains r.TestState then acc else acc ++ [r.TestState]) []

/-- `df[df['TestState'] == state]`: every row carrying the state label, in
arrival order - regardless of `TestRunID` and of contiguity. -/
def stateGroup (df : List R) (s : String) : List R :=
  df.filter (fun r => r.TestState == s)

/-- `state_data.sort_values('EntryTimestamp_ms')` (stable sort by
timestamp). -/
def sortByTs (g : List R) : List R :=
  List.insertionSort (fun a b => a.EntryTimestamp_ms ≤ b.EntryTimestamp_ms) g

/-- `sampling_interval_s = 1.0`: the assumed uniform 1 Hz sampling interval. -/
def sampling_interval_s : ℚ := 1

/-- Line 154: the check for real (non-placeholder) charge data. -/
def hasRealChargeData (df : List R) : Bool :=
  !(psum (df.map (fun r => r.Batt_Charge_C))).eqb (.fin 0)
    || !(psum (df.map (fun r => r.Load_Charge_C))).eqb (.fin 0)

/-- One entry of `validation_results` in `validate_charge_accumulation`. -/
structure ChargeResult where
  batt_manual_charge_C : PF
  batt_hardware_charge_C : PF
  batt_error_pct : PF
  load_manual_charge_C : PF
  load_hardware_charge_C : PF
  load_error_pct : PF
  sample_count : Nat
deriving DecidableEq, Repr

/-- The per-state record built in the loop body of
`validate_charge_accumulation` (lines 169-197), from the timestamp-sorted
rows `sd` of the state and the raw sample count `n`: manual charge =
sum(current)/1000 * interval, hardware charge = last - first accumulator
value, error% = `|manual - hardware| / |hardware| * 100` when the hardware
delta passes the `!= 0` test and `float('inf')` otherwise. -/
def chargeResultFor (sd : List R) (n : ℕ) : ChargeResult :=
  let battManual :=
    PF.mul (PF.div (psum (sd.map (fun r => r.Batt_Current_mA))) (.fin 1000))
      (.fin sampling_interval_s)
  let battDelta :=
    PF.sub (sd.getLastD defaultR).Batt_Charge_C (sd.headD defaultR).Batt_Charge_C
  let loadManual :=
    PF.mul (PF.div (psum (sd.map (fun r => r.Load_Current_mA))) (.fin 1000))
      (.fin sampling_interval_s)
  let loadDelta :=
    PF.sub (sd.getLastD defaultR).Load_Charge_C (sd.headD defaultR).Load_Charge_C
  let battErr :=
    if !battDelta.eqb (.fin 0) then
      PF.mul (PF.div (PF.abs (PF.sub battManual battDelta)) (PF.abs battDelta)) (.fin 100)
    else .pinf
  let loadErr :=
    if !loadDelta.eqb (.fin 0) then
      PF.mul (PF.div (PF.abs (PF.sub loadManual loadDelta)) (PF.abs loadDelta)) (.fin 100)
    else .pinf
  ⟨battManual, battDelta, battErr, loadManual, loadDelta, loadErr, n⟩

/-- `validate_charge_accumulation` (lines 144-199): skip everything unless
some charge column has nonzero sum; then, per distinct state label with at
least 2 rows, build the `chargeResultFor` record on the timestamp-sorted
rows. -/
def validate_charge_accumulation (df : List R) : List (String × ChargeResult) :=
  if !hasRealChargeData df then []
  else
    (uniqueStates df).filterMap (fun s =>
      let g := stateGroup df s
      if g.length < 2 then none
      else some (s, chargeResultFor (sortByTs g) g.length))

/-- The three tier labels `generate_enhanced_report` can emit. -/
inductive Status where
  | excellent : Status
  | good : Status
  | poor : Status
deriving DecidableEq, Repr

/-- Lines 388-389 of `generate_enhanced_report`: the tier a reported error
percentage is classified into.  There are only three tiers; an infinite (or
NaN) error fails both `< 5` and `< 15` and lands in `poor`. -/
def validation_status (e : PF) : Status :=
  if e.blt (.fin 5) then .excellent
  else if e.blt (.fin 15) then .good
  else .poor

/-- One entry of `sensor_comparison` in `analyze_dual_sensors`. -/
structure SensorComparison where
  avg_voltage_diff_V : PF
  avg_current_diff_mA : PF
  avg_power_diff_mW : PF
  max_voltage_diff_V : PF
  max_current_diff_mA : PF
  max_power_diff_mW : PF
  voltage_correlation : PF
  current_correlation : PF
  power_correlation : PF
deriving DecidableEq, Repr

/-- The per-state record built in the loop body of `analyze_dual_sensors`
(lines 210-225): the battery-minus-load differences of voltage, current and
power - their mean, the maximum absolute value - and the Pearson correlation
of the two channels, over the state rows `g` in arrival order. -/
def sensorComparisonFor (g : List R) : SensorComparison :=
  let vdiff := g.map (fun r => PF.sub r.Batt_Voltage_V r.Load_Voltage_V)
  let cdiff := g.map (fun r => PF.sub r.Batt_Current_mA r.Load_Current_mA)
  let pdiff := g.map (fun r => PF.sub r.Batt_Power_mW r.Load_Power_mW)
  ⟨pmean vdiff, pmean cdiff, pmean pdiff,
   pmax (vdiff.map PF.abs), pmax (cdiff.map PF.abs), pmax (pdiff.map PF.abs),
   pcorr (g.map (fun r => r.Batt_Voltage_V)) (g.map (fun r => r.Load_Voltage_V)),
   pcorr (g.map (fun r => r.Batt_Current_mA)) (g.map (fun r => r.Load_Current_mA)),
   pcorr (g.map (fun r => r.Batt_Power_mW)) (g.map (fun r => r.Load_Power_mW))⟩

/-- `analyze_dual_sensors` (lines 201-227): per distinct state label (no
minimum sample count, no sorting), the `sensorComparisonFor` record. -/
def analyze_dual_sensors (df : List R) : List (String × SensorComparison) :=
  (uniqueStates df).map (fun s => (s, sensorComparisonFor (stateGroup df s)))

/-- One entry of `energy_analysis` in `analyze_energy_consumption`. -/
structure EnergyResult where
  duration_s : ℚ
  batt_energy_consumed_J : PF
  load_energy_consumed_J : PF
  batt_power_from_energy_mW : PF
  load_power_from_energy_mW : PF
  batt_power_direct_mW : PF
  load_power_direct_mW : PF
  batt_power_error_pct : PF
  load_power_error_pct : PF
deriving DecidableEq, Repr

/-- The per-state record built in the loop body of
`analyze_energy_consumption` (lines 241-268), from the timestamp-sorted rows
`sd`: duration in seconds, energy register deltas, average power derived from
energy = delta / duration * 1000 (the division is not guarded - a zero
duration flows into it and produces an infinity or NaN), directly sampled
mean power, and the error percentage, whose division IS guarded by
`avg_power_direct != 0`. -/
def energyResultFor (sd : List R) : EnergyResult :=
  let duration_s : ℚ :=
    ((sd.getLastD defaultR).EntryTimestamp_ms - (sd.headD defaultR).EntryTimestamp_ms) / 1000
  let battDelta :=
    PF.sub (sd.getLastD defaultR).Batt_Energy_J (sd.headD defaultR).Batt_Energy_J
  let loadDelta :=
    PF.sub (sd.getLastD defaultR).Load_Energy_J (sd.headD defaultR).Load_Energy_J
  let battFromE := PF.mul (PF.div battDelta (.fin duration_s)) (.fin 1000)
  let loadFromE := PF.mul (PF.div loadDelta (.fin duration_s)) (.fin 1000)
  let battDirect := pmean (sd.map (fun r => r.Batt_Power_mW))
  let loadDirect := pmean (sd.map (fun r => r.Load_Power_mW))
  let battErrPct :=
    if !battDirect.eqb (.fin 0) then
      PF.mul (PF.div (PF.abs (PF.sub battFromE battDirect)) battDirect) (.fin 100)
    else .pinf
  let loadErrPct :=
    if !loadDirect.eqb (.fin 0) then
      PF.mul (PF.div (PF.abs (PF.sub loadFromE loadDirect)) loadDirect) (.fin 100)
    else .pinf
  ⟨duration_s, battDelta, loadDelta, battFromE, loadFromE,
   battDirect, loadDirect, battErrPct, loadErrPct⟩

/-- `analyze_energy_consumption` (lines 229-270): per distinct state label
with at least 2 rows, the `energyResultFor` record on the timestamp-sorted
rows. -/
def analyze_energy_consumption (df : List R) : List (String × EnergyResult) :=
  (uniqueStates df).filterMap (fun s =>
    let g := stateGroup df s
    if g.length < 2 then none
    else some (s, energyResultFor (sortByTs g)))

/-- Keyed access to the per-state result dictionaries. -/
def lookupState {α : Type} (l : List (String × α)) (s : String) : Option α :=
  (l.find? (fun p => p.1 == s)).map (fun p => p.2)

/-!
## Record-level model of `analyze_power_flow` (gnss_power_analysis.py)

`analyze_power_flow` reads only the three power columns of the loaded GNSS
frame; one row is a `GRec`.
-/

/-- One row of the 3-sensor GNSS data, restricted to the columns
`analyze_power_flow` reads. -/
structure GRec where
  Solar_Power_mW : PF
  Battery_Power_mW : PF
  Load_Power_mW : PF
deriving DecidableEq, Repr

/-- Per-stage aggregate statistics (one of the `analysis[...]` dicts). -/
structure StageStats where
  avg_power_mW : PF
  max_power_mW : PF
  min_power_mW : PF
  total_energy_mWh : PF
deriving DecidableEq, Repr

/-- The result dictionary of `analyze_power_flow`. -/
structure PowerFlowAnalysis where
  solar : StageStats
  battery : StageStats
  load : StageStats
  system_efficiency_pct : PF
  solar_vs_battery : PF
  battery_vs_load : PF
  solar_vs_load : PF
deriving DecidableEq, Repr

/-- The per-stage statistics block (mean, max, min, sum/3600). -/
def stageStats (l : List PF) : StageStats :=
  ⟨pmean l, pmax l, pmin l, PF.div (psum l) (.fin 3600)⟩

/-- `analyze_power_flow` (lines 117-161): per-stage statistics, the system
efficiency - `(load_total / solar_total) * 100` when `solar_total > 0` and
the literal `0.0` otherwise - and the pairwise correlations. -/
def analyze_power_flow (df : List GRec) : PowerFlowAnalysis :=
  let sp := df.map (fun r => r.Solar_Power_mW)
  let bp := df.map (fun r => r.Battery_Power_mW)
  let lp := df.map (fun r => r.Load_Power_mW)
  let solar_total := psum sp
  let load_total := psum lp
  let eff :=
    if (PF.fin 0).blt solar_total then PF.mul (PF.div load_total solar_total) (.fin 100)
    else .fin 0
  ⟨stageStats sp, stageStats bp, stageStats lp, eff, pcorr sp bp, pcorr bp lp, pcorr sp lp⟩

/-!
## The Anomaly Repairer

Modelled from the spec: no column-shift repair code exists under `src/`; only
spec section 4.3 describes the Anomaly Repairer.  The definitions below
follow its words: on the legacy single-channel layout, every row whose
`run_id` column contains the sentinel state label is realigned - the run_id
slot value moves to the state slot, the state slot value to the timestamp
slot, the timestamp slot value to the first-channel-voltage slot, and so on
for one further field (voltage to current) - and the now-empty `run_id` is
filled by carrying forward the most recent valid `run_id` seen earlier in row
order.
-/

/-- A raw row of the legacy single-channel layout, as the Repairer sees it. -/
structure RawRow where
  run_id : String
  state : String
  timestamp : String
  voltage : String
  current : String
  power : String
deriving DecidableEq, Repr

/-- Modelled from the spec: the deterministic column re-alignment applied to
one corrupted row (spec section 4.3); `run_id` is left empty for the
carry-forward pass. -/
def realignRow (r : RawRow) : RawRow :=
  ⟨"", r.run_id, r.state, r.timestamp, r.voltage, r.power⟩

/-- Modelled from the spec: one pass over the rows, carrying the most recent
valid `run_id` in `lastValid` ("" when none has been seen yet). -/
def repairRows (sentinel : String) (lastValid : String) : List RawRow → List RawRow
  | [] => []
  | r :: rs =>
      if r.run_id = sentinel then
        let r2 := { realignRow r with run_id := lastValid }
        r2 :: repairRows sentinel lastValid rs
      else
        r :: repairRows sentinel r.run_id rs

/-- Modelled from the spec: the Anomaly Repairer on a legacy single-channel
table. -/
def repair (sentinel : String) (rows : List RawRow) : List RawRow :=
  repairRows sentinel "" rows

/-- All entries of a rational list are equal. -/
def allEqQ (l : List ℚ) : Prop := ∀ x ∈ l, ∀ y ∈ l, x = y

instance (l : List ℚ) : Decidable (allEqQ l) := by
  unfold allEqQ
  infer_instance

/-!
## Concrete sample data used by the counterexamples and witnesses
-/

/-- A plausible canonical row; each sample below overrides a few fields. -/
def baseR : R :=
  { TestRunID := "RUN_042", TestState := "Sustained_SD_Write", EntryTimestamp_ms := 0,
    Batt_Voltage_V := .fin 4, Batt_Current_mA := .fin 100, Batt_Power_mW := .fin 400,
    Batt_Energy_J := .fin 0, Batt_Charge_C := .fin 0, Batt_Diagnostic := 0,
    Load_Voltage_V := .fin 4, Load_Current_mA := .fin 100, Load_Power_mW := .fin 400,
    Load_Energy_J := .fin 0, Load_Charge_C := .fin 0, Load_Diagnostic := 0 }

/-- C2 counterexample data: one run with two disjoint, non-contiguous windows
of the state `MCU_Active_SD_Idle_Standby` (rows 0 and 2), separated by a
`Sustained_SD_Write` row; the charge columns are nonzero so the charge
validator runs. -/
def rC2a : R :=
  { baseR with
      TestState := "MCU_Active_SD_Idle_Standby"
      EntryTimestamp_ms := 0
      Batt_Charge_C := .fin 1
      Load_Charge_C := .fin 1 }

/-- C2 counterexample data, middle row (the other state). -/
def rC2b : R :=
  { baseR with
      TestState := "Sustained_SD_Write"
      EntryTimestamp_ms := 1000
      Batt_Charge_C := .fin 2
      Load_Charge_C := .fin 2 }

/-- C2 counterexample data, last row (second window of the first state). -/
def rC2c : R :=
  { baseR with
      TestState := "MCU_Active_SD_Idle_Standby"
      EntryTimestamp_ms := 2000
      Batt_Charge_C := .fin 3
      Load_Charge_C := .fin 3 }

/-- C2 counterexample table. -/
def dfC2 : List R := [rC2a, rC2b, rC2c]

/-- C1 counterexample data: two rows of one state whose battery charge
accumulator does not move (delta 0) while its column sum is nonzero, so the
charge validator runs and hits the zero-denominator case on the battery
side. -/
def dfC1 : List R :=
  [{ baseR with
      EntryTimestamp_ms := 0
      Batt_Charge_C := .fin 1
      Load_Charge_C := .fin 1 },
   { baseR with
      EntryTimestamp_ms := 1000
      Batt_Charge_C := .fin 1
      Load_Charge_C := .fin 2 }]

/-- C4 counterexample data: one GNSS row with solar power 2 mW and load
power 0 mW. -/
def dfC4 : List GRec := [⟨.fin 2, .fin 1, .fin 0⟩]

/-- C4 witness data: solar powers summing to 2, load powers summing to 1. -/
def dfW4 : List GRec := [⟨.fin 2, .fin 1, .fin 1⟩]

/-- C5 counterexample data: one state, two rows, battery charge accumulator
going from -1 to 1: the hardware delta is 2 (nonzero) and there are 2
samples, but both charge columns sum to zero, so the loader-level gate
`has_real_charge_data` fails and the check computes nothing at all. -/
def dfC5 : List R :=
  [{ baseR with
      EntryTimestamp_ms := 0
      Batt_Charge_C := .fin (-1)
      Load_Charge_C := .fin 0 },
   { baseR with
      EntryTimestamp_ms := 1000
      Batt_Charge_C := .fin 1
      Load_Charge_C := .fin 0 }]

/-- C5 witness data: clean dual-channel charge data at 1 Hz: currents 100 mA,
battery charge accumulator moving from 1 to 2. -/
def dfW5 : List R :=
  [{ baseR with
      EntryTimestamp_ms := 0
      Batt_Charge_C := .fin 1
      Load_Charge_C := .fin 1 },
   { baseR with
      EntryTimestamp_ms := 1000
      Batt_Charge_C := .fin 2
      Load_Charge_C := .fin 2 }]

/-- C8 counterexample data: two rows of one state whose battery and load
channels are identical AND constant over the group. -/
def dfC8 : List R :=
  [{ baseR with EntryTimestamp_ms := 0 },
   { baseR with EntryTimestamp_ms := 1000 }]

/-- C8 witness data: identical channels with a non-constant voltage series
and constant current/power series. -/
def dfW8 : List R :=
  [{ baseR with
      EntryTimestamp_ms := 0
      Batt_Voltage_V := .fin 4
      Load_Voltage_V := .fin 4 },
   { baseR with
      EntryTimestamp_ms := 1000
      Batt_Voltage_V := .fin 5
      Load_Voltage_V := .fin 5 }]

/-- C7 counterexample data: a 15-column row whose battery power parses but
whose load power is the unparseable text "garbage". -/
def rowC7 : List Cell :=
  [.str "RUN_042", .str "Sustained_SD_Write", .num 0, .num 4, .num 100, .num 400,
   .num 0, .num 1, .num 0, .num 4, .num 100, .str "garbage", .num 0, .num 1, .num 0]

/-- C7 counterexample frame. -/
def fC7 : Frame := ⟨NEW_COLUMN_NAMES, [rowC7]⟩

/-- C7 witness data: two clean 15-column rows and one row with unparseable
battery power. -/
def rowsW7 : List (List Cell) :=
  [[.str "RUN_042", .str "Sustained_SD_Write", .num 0, .num 4, .num 100, .num 400,
    .num 0, .num 1, .num 0, .num 4, .num 100, .num 400, .num 0, .num 1, .num 0],
   [.str "RUN_042", .str "Sustained_SD_Write", .num 1000, .num 4, .str "bad", .num 401,
    .num 1, .num 2, .num 0, .num 4, .num 100, .num 401, .num 1, .num 2, .num 0],
   [.str "RUN_042", .str "Sustained_SD_Write", .num 2000, .num 4, .num 100, .str "bad",
    .num 2, .num 3, .num 0, .num 4, .num 100, .num 402, .num 2, .num 3, .num 0]]

/-- C6 counterexample data: a one-row legacy 6-column frame. -/
def fC6 : Frame :=
  ⟨OLD_COLUMN_NAMES,
   [[.str "RUN_042", .str "Sustained_SD_Write", .num 0, .num 4, .num 100, .num 400]]⟩

/-- C3 counterexample data: a frame with no recognizable power column at
all. -/
def fC3 : Frame :=
  ⟨["Sensor_ID", "Note"], [[.num 7, .str "ok"], [.str "x", .nan]]⟩

/-- C9 witness data: a clean first row followed by a corrupted row whose
run_id slot holds the sentinel state label. -/
def rowsC9 : List RawRow :=
  [⟨"RUN_042", "MCU_Active_SD_Idle_Standby", "0", "4.01", "100.2", "401.1"⟩,
   ⟨"Sustained_SD_Write", "1000", "4.02", "100.4", "401.9", ""⟩]

/-- C10 witness data: two rows of one state sharing the same timestamp, with
a positive battery energy delta. -/
def dfW10 : List R :=
  [{ baseR with
      EntryTimestamp_ms := 500
      Batt_Energy_J := .fin 0 },
   { baseR with
      EntryTimestamp_ms := 500
      Batt_Energy_J := .fin 5 }]

/-!
## Lemmas about the float model and the pandas reductions
-/

@[simp] theorem PF.add_fin (a b : ℚ) : PF.add (.fin a) (.fin b) = .fin (a + b) := rfl

@[simp] theorem PF.sub_fin (a b : ℚ) : PF.sub (.fin a) (.fin b) = .fin (a - b) := by
  simp [PF.sub, PF.neg, PF.add, sub_eq_add_neg]

@[simp] theorem PF.mul_fin (a b : ℚ) : PF.mul (.fin a) (.fin b) = .fin (a * b) := rfl

theorem PF.div_fin (a b : ℚ) (h : b ≠ 0) : PF.div (.fin a) (.fin b) = .fin (a / b) := by
  simp [PF.div, h]

theorem PF.div_fin_zero (a : ℚ) (h : 0 < a) : PF.div (.fin a) (.fin 0) = .pinf := by
  simp [PF.div, h]

@[simp] theorem PF.abs_fin (a : ℚ) : PF.abs (.fin a) = .fin |a| := rfl

@[simp] theorem PF.eqb_fin (a b : ℚ) : PF.eqb (.fin a) (.fin b) = decide (a = b) := rfl

@[simp] theorem PF.blt_fin (a b : ℚ) : PF.blt (.fin a) (.fin b) = decide (a < b) := rfl

@[simp] theorem PF.isNan_fin (a : ℚ) : (PF.fin a).isNan = false := rfl

@[simp] theorem PF.isFinite_fin (a : ℚ) : (PF.fin a).isFinite = true := rfl

@[simp] theorem PF.toRat_fin (a : ℚ) : (PF.fin a).toRat = a := rfl

theorem PF.isFinite_iff (x : PF) : x.isFinite = true ↔ ∃ q, x = .fin q := by
  cases x <;> simp [PF.isFinite]

theorem PF.isNan_eq_false_of_finite (x : PF) (h : x.isFinite = true) : x.isNan = false := by
  obtain ⟨q, rfl⟩ := (PF.isFinite_iff x).1 h
  rfl

theorem notNan_of_finite (l : List PF) (h : ∀ x ∈ l, x.isFinite = true) : notNan l = l := by
  rw [notNan, List.filter_eq_self]
  intro x hx
  simp [PF.isNan_eq_false_of_finite x (h x hx)]

theorem foldl_add_fin (l : List ℚ) (a : ℚ) :
    List.foldl PF.add (.fin a) (l.map PF.fin) = .fin (a + l.sum) := by
  induction l generalizing a with
  | nil => simp
  | cons x xs ih => simp [ih, add_assoc]

theorem psum_map_fin (l : List ℚ) : psum (l.map PF.fin) = .fin l.sum := by
  have h : notNan (l.map PF.fin) = l.map PF.fin :=
    notNan_of_finite _ (by intro x hx; simp [List.mem_map] at hx; obtain ⟨q, _, rfl⟩ := hx; rfl)
  rw [psum, h, foldl_add_fin]
  simp

theorem map_fin_toRat (l : List PF) (h : ∀ x ∈ l, x.isFinite = true) :
    (l.map PF.toRat).map PF.fin = l := by
  rw [List.map_map]
  calc l.map (PF.fin ∘ PF.toRat) = l.map id := by
        apply List.map_congr_left
        intro x hx
        obtain ⟨q, rfl⟩ := (PF.isFinite_iff x).1 (h x hx)
        rfl
    _ = l := l.map_id

theorem psum_of_finite (l : List PF) (h : ∀ x ∈ l, x.isFinite = true) :
    psum l = .fin ((l.map PF.toRat).sum) := by
  conv_lhs => rw [← map_fin_toRat l h]
  exact psum_map_fin _

theorem pcount_of_finite (l : List PF) (h : ∀ x ∈ l, x.isFinite = true) :
    pcount l = l.length := by
  rw [pcount, notNan_of_finite l h]

theorem foldl_pickmax_fin_const (q : ℚ) :
    ∀ k, List.foldl (fun a b : PF => if a.blt b then b else a) (PF.fin q)
      (List.replicate k (PF.fin q)) = PF.fin q := by
  intro k
  induction k with
  | zero => rfl
  | succ n ih =>
    rw [List.replicate_succ, List.foldl_cons]
    simpa [ite_self] using ih

theorem pmax_replicate (n : ℕ) (h : n ≠ 0) (q : ℚ) :
    pmax (List.replicate n (.fin q)) = .fin q := by
  have hn : notNan (List.replicate n (.fin q)) = List.replicate n (.fin q) :=
    notNan_of_finite _ (by intro x hx; rw [List.eq_of_mem_replicate hx]; rfl)
  obtain ⟨m, rfl⟩ := Nat.exists_eq_succ_of_ne_zero h
  rw [pmax, hn, List.replicate_succ]
  exact foldl_pickmax_fin_const q m

theorem pmean_replicate (n : ℕ) (h : n ≠ 0) (q : ℚ) :
    pmean (List.replicate n (.fin q)) = .fin q := by
  have hfin : ∀ x ∈ List.replicate n (PF.fin q), x.isFinite = true := by
    intro x hx; rw [List.eq_of_mem_replicate hx]; rfl
  have hsum : psum (List.replicate n (.fin q)) = .fin (n * q) := by
    rw [psum_of_finite _ hfin]
    simp [List.sum_replicate, nsmul_eq_mul]
  have hcount : pcount (List.replicate n (.fin q)) = n := by
    rw [pcount_of_finite _ hfin, List.length_replicate]
  have hq : ((n : ℚ)) ≠ 0 := Nat.cast_ne_zero.2 h
  rw [pmean, hcount, if_neg h, hsum, PF.div_fin _ _ hq]
  congr 1
  field_simp

theorem zip_self {α : Type} (l : List α) : l.zip l = l.map (fun x => (x, x)) := by
  induction l with
  | nil => rfl
  | cons x xs ih => simp [List.zip_cons_cons, ih, List.zip]

theorem dot_self (l : List ℚ) : dot l l = (l.map (fun d => d * d)).sum := by
  rw [dot, zip_self, List.map_map]
  rfl

theorem sum_sq_nonneg (l : List ℚ) : 0 ≤ (l.map (fun d => d * d)).sum := by
  apply List.sum_nonneg
  intro y hy
  simp only [List.mem_map] at hy
  obtain ⟨d, _, rfl⟩ := hy
  exact mul_self_nonneg d

theorem sum_sq_eq_zero_iff (l : List ℚ) :
    (l.map (fun d => d * d)).sum = 0 ↔ ∀ d ∈ l, d = 0 := by
  induction l with
  | nil => simp
  | cons x xs ih =>
    simp only [List.map_cons, List.sum_cons]
    constructor
    · intro h d hd
      have hx : 0 ≤ x * x := mul_self_nonneg x
      have hs : 0 ≤ (xs.map (fun d => d * d)).sum := sum_sq_nonneg xs
      have hx0 : x * x = 0 := by linarith
      have hs0 : (xs.map (fun d => d * d)).sum = 0 := by linarith
      rcases List.mem_cons.1 hd with rfl | hd2
      · exact mul_self_eq_zero.1 hx0
      · exact ih.1 hs0 d hd2
    · intro h
      have hx0 : x = 0 := h x (List.mem_cons_self x xs)
      have hs0 : (xs.map (fun d => d * d)).sum = 0 :=
        ih.2 (fun d hd => h d (List.mem_cons_of_mem x hd))
      rw [hx0, hs0]
      ring


theorem devs_eq_zero_iff (l : List ℚ) :
    (∀ d ∈ devs l, d = 0) ↔ ∀ x ∈ l, x = l.sum / l.length := by
  unfold devs
  simp [sub_eq_zero]

theorem allEqQ_iff_eq_mean (l : List ℚ) (h : l ≠ []) :
    allEqQ l ↔ ∀ x ∈ l, x = l.sum / l.length := by
  constructor
  · intro ha x hx
    have hrep : l = List.replicate l.length x :=
      List.eq_replicate_length.2 (fun b hb => ha b hb x hx)
    have hlen : (l.length : ℚ) ≠ 0 :=
      Nat.cast_ne_zero.2 (by simpa [List.length_eq_zero] using h)
    conv_rhs => rw [hrep]
    rw [List.sum_replicate, List.length_replicate, nsmul_eq_mul]
    field_simp
  · intro hm x hx y hy
    rw [hm x hx, hm y hy]

theorem dot_devs_self_eq_zero_iff (l : List ℚ) (h : l ≠ []) :
    dot (devs l) (devs l) = 0 ↔ allEqQ l := by
  rw [dot_self, sum_sq_eq_zero_iff, devs_eq_zero_iff, allEqQ_iff_eq_mean l h]

theorem dot_devs_self_nonneg (l : List ℚ) : 0 ≤ dot (devs l) (devs l) := by
  rw [dot_self]
  exact sum_sq_nonneg _

/-- Pearson correlation of a finite series with itself: exactly 1 when there
are at least two samples and the series is not constant, NaN otherwise. -/
theorem pcorr_self_of_finite (xs : List PF) (h : ∀ x ∈ xs, x.isFinite = true) :
    pcorr xs xs =
      if 2 ≤ xs.length ∧ ¬ allEqQ (xs.map PF.toRat) then .fin 1 else .nan := by
  have hzip : xs.zip xs = xs.map (fun x => (x, x)) := zip_self xs
  have hfilter :
      (xs.map (fun x => (x, x))).filter (fun p => !p.1.isNan && !p.2.isNan)
        = xs.map (fun x => (x, x)) := by
    rw [List.filter_eq_self]
    intro p hp
    simp only [List.mem_map] at hp
    obtain ⟨x, hx, rfl⟩ := hp
    simp [PF.isNan_eq_false_of_finite x (h x hx)]
  have hany :
      (xs.map (fun x => (x, x))).any (fun p => !p.1.isFinite || !p.2.isFinite) = false := by
    rw [List.any_eq_false]
    intro p hp
    simp only [List.mem_map] at hp
    obtain ⟨x, hx, rfl⟩ := hp
    simp [h x hx]
  rw [pcorr]
  simp only [hzip, hfilter, hany, Bool.false_eq_true, if_false, List.length_map,
    List.map_map]
  have hfst : ((fun p : PF × PF => p.1.toRat) ∘ fun x => (x, x)) = PF.toRat := rfl
  have hsnd : ((fun p : PF × PF => p.2.toRat) ∘ fun x => (x, x)) = PF.toRat := rfl
  rw [hfst, hsnd]
  by_cases hlen : xs.length < 2
  · rw [if_pos hlen, if_neg]
    intro hc
    have h2 := hc.1
    omega
  · rw [if_neg hlen]
    have hxs : xs ≠ [] := by
      intro h0
      subst h0
      simp at hlen
    have hne : xs.map PF.toRat ≠ [] := fun hnil => hxs (by simpa using hnil)
    set S := dot (devs (xs.map PF.toRat)) (devs (xs.map PF.toRat)) with hS
    by_cases hzero : S = 0
    · rw [if_pos (Or.inl hzero), if_neg]
      intro hc
      exact hc.2 ((dot_devs_self_eq_zero_iff _ hne).1 hzero)
    · rw [if_neg (by tauto), if_pos]
      · have hpos : 0 < S := lt_of_le_of_ne (dot_devs_self_nonneg _) (Ne.symm hzero)
        rw [Rat.sqrt_eq, abs_of_pos hpos, div_self hzero]
      · refine ⟨by omega, ?_⟩
        intro hall
        exact hzero ((dot_devs_self_eq_zero_iff _ hne).2 hall)

theorem zip_replicate_eq_map {α β : Type} (l : List α) (n : ℕ) (v : β) (h : l.length = n) :
    l.zip (List.replicate n v) = l.map (fun r => (r, v)) := by
  induction l generalizing n with
  | nil => simp
  | cons x xs ih =>
    cases n with
    | zero => simp at h
    | succ m =>
      simp only [List.replicate_succ, List.zip_cons_cons, List.map_cons]
      rw [ih m (by simpa using h)]

theorem self_zip_map_eq_map {α β : Type} (l : List α) (f : α → β) :
    l.zip (l.map f) = l.map (fun r => (r, f r)) := by
  induction l with
  | nil => rfl
  | cons x xs ih => simp only [List.map_cons, List.zip_cons_cons, ih]

theorem exists_six (r : List Cell) (h : r.length = 6) :
    ∃ c0 c1 c2 c3 c4 c5, r = [c0, c1, c2, c3, c4, c5] := by
  rcases r with _ | ⟨c0, r⟩; · simp at h
  rcases r with _ | ⟨c1, r⟩; · simp at h
  rcases r with _ | ⟨c2, r⟩; · simp at h
  rcases r with _ | ⟨c3, r⟩; · simp at h
  rcases r with _ | ⟨c4, r⟩; · simp at h
  rcases r with _ | ⟨c5, r⟩; · simp at h
  rcases r with _ | ⟨c6, r⟩
  · exact ⟨c0, c1, c2, c3, c4, c5, rfl⟩
  · simp at h

/-- On a standard legacy table whose rows all have 6 cells, the old-format
conversion produces exactly the 15 canonical columns: the three measurement
columns renamed to the battery channel, zeros appended for the accumulator
and diagnostic columns, and the battery voltage/current/power cells copied
row-for-row into the load channel columns.  No provenance column of any kind
is added. -/
theorem convertOldFormat_spec (rows : List (List Cell)) (h : ∀ r ∈ rows, r.length = 6) :
    convertOldFormat ⟨OLD_COLUMN_NAMES, rows⟩ =
      ⟨NEW_COLUMN_NAMES,
       rows.map (fun r =>
         r ++ [Cell.num 0, Cell.num 0, Cell.num 0,
           r.getD 3 .nan, r.getD 4 .nan, r.getD 5 .nan,
           Cell.num 0, Cell.num 0, Cell.num 0])⟩ := by
  simp [convertOldFormat, setCol, getCol, cellAt, OLD_COLUMN_NAMES, NEW_COLUMN_NAMES,
    old_to_new_mapping, zip_replicate_eq_map, self_zip_map_eq_map, List.map_map,
    List.zip_map']
  intro a ha
  obtain ⟨c0, c1, c2, c3, c4, c5, rfl⟩ := exists_six a (h a ha)
  exact ⟨rfl, rfl, rfl⟩

theorem getCol_frame (hd : List String) (rows : List (List Cell)) (n : String) (i : ℕ)
    (hi : hd.findIdx? (fun m => m == n) = some i) :
    getCol ⟨hd, rows⟩ n = rows.map (fun r => r.getD i Cell.nan) := by
  rw [getCol]
  apply List.map_congr_left
  intro r _
  simp only [cellAt, hi]

theorem exists_fifteen (r : List Cell) (h : r.length = 15) :
    ∃ c0 c1 c2 c3 c4 c5 c6 c7 c8 c9 c10 c11 c12 c13 c14,
      r = [c0, c1, c2, c3, c4, c5, c6, c7, c8, c9, c10, c11, c12, c13, c14] := by
  rcases r with _ | ⟨c0, r⟩; · simp at h
  rcases r with _ | ⟨c1, r⟩; · simp at h
  rcases r with _ | ⟨c2, r⟩; · simp at h
  rcases r with _ | ⟨c3, r⟩; · simp at h
  rcases r with _ | ⟨c4, r⟩; · simp at h
  rcases r with _ | ⟨c5, r⟩; · simp at h
  rcases r with _ | ⟨c6, r⟩; · simp at h
  rcases r with _ | ⟨c7, r⟩; · simp at h
  rcases r with _ | ⟨c8, r⟩; · simp at h
  rcases r with _ | ⟨c9, r⟩; · simp at h
  rcases r with _ | ⟨c10, r⟩; · simp at h
  rcases r with _ | ⟨c11, r⟩; · simp at h
  rcases r with _ | ⟨c12, r⟩; · simp at h
  rcases r with _ | ⟨c13, r⟩; · simp at h
  rcases r with _ | ⟨c14, r⟩; · simp at h
  rcases r with _ | ⟨c15, r⟩
  · exact ⟨c0, c1, c2, c3, c4, c5, c6, c7, c8, c9, c10, c11, c12, c13, c14, rfl⟩
  · simp at h

/-- C7 (amended): on a standard 15-column table whose rows all have 15
cells, a row is dropped exactly when its `Batt_Power_mW` (battery power)
cell fails to parse as a number; malformed values in every other numeric
field - the load channel's power included - merely become NaN and the row is
kept.  The loader keeps exactly the rows whose battery power cell parses,
coercing the numeric columns of the kept rows. -/
theorem C7_theorem (rows : List (List Cell)) (h : ∀ r ∈ rows, r.length = 15) :
    clean_and_load_data ⟨NEW_COLUMN_NAMES, rows⟩ =
      .ok ⟨NEW_COLUMN_NAMES,
           (rows.filter (fun r => (r.getD 5 .nan).isNum)).map (coerceRow NEW_COLUMN_NAMES)⟩ := by
  have h1 : clean_and_load_data ⟨NEW_COLUMN_NAMES, rows⟩
      = .ok (dropnaSubset ⟨NEW_COLUMN_NAMES, rows.map (coerceRow NEW_COLUMN_NAMES)⟩
          "Batt_Power_mW") := rfl
  rw [h1, dropnaSubset]
  congr 2
  rw [List.filter_map]
  congr 1
  apply List.filter_congr
  intro r hr
  obtain ⟨c0, c1, c2, c3, c4, c5, c6, c7, c8, c9, c10, c11, c12, c13, c14, rfl⟩ :=
    exists_fifteen r (h r hr)
  cases c5 <;> rfl

theorem repairRows_no_sentinel (sentinel : String) :
    ∀ (rows : List RawRow) (lastValid : String), lastValid ≠ sentinel →
      ∀ r ∈ repairRows sentinel lastValid rows, r.run_id ≠ sentinel := by
  intro rows
  induction rows with
  | nil =>
    intro lv hlv r hr
    simp [repairRows] at hr
  | cons x xs ih =>
    intro lv hlv r hr
    rw [repairRows] at hr
    by_cases hx : x.run_id = sentinel
    · rw [if_pos hx] at hr
      rcases List.mem_cons.1 hr with rfl | hr2
      · exact hlv
      · exact ih lv hlv r hr2
    · rw [if_neg hx] at hr
      rcases List.mem_cons.1 hr with rfl | hr2
      · exact hx
      · exact ih x.run_id hx r hr2

theorem repairRows_id (sentinel : String) :
    ∀ rows : List RawRow, (∀ r ∈ rows, r.run_id ≠ sentinel) →
      ∀ lastValid, repairRows sentinel lastValid rows = rows := by
  intro rows
  induction rows with
  | nil => intro _ _; rfl
  | cons x xs ih =>
    intro h lv
    rw [repairRows, if_neg (h x (List.mem_cons_self x xs))]
    rw [ih (fun r hr => h r (List.mem_cons_of_mem x hr)) x.run_id]

/-!
## Keyed lookup over the per-state result lists
-/

theorem lookupState_filterMap_keyed {α : Type} (states : List String)
    (H : String → Option (String × α)) (s : String)
    (hkey : ∀ t p, H t = some p → p.1 = t)
    (hs : s ∈ states) (hnd : states.Nodup) :
    lookupState (states.filterMap H) s = (H s).map (fun p => p.2) := by
  induction states with
  | nil => cases hs
  | cons t ts ih =>
    rcases List.mem_cons.1 hs with rfl | hmem
    · have hnot : ∀ p ∈ ts.filterMap H, ¬((p.1 == s) = true) := by
        intro p hp hbeq
        obtain ⟨u, hu, hHu⟩ := List.mem_filterMap.1 hp
        have h1 : p.1 = u := hkey u p hHu
        have h2 : p.1 = s := by simpa using hbeq
        rw [h1] at h2
        exact (List.nodup_cons.1 hnd).1 (h2 ▸ hu)
      cases hG : H s with
      | none =>
        rw [List.filterMap_cons_none hG, lookupState, List.find?_eq_none.2 hnot]
      | some p =>
        have hp1 : p.1 = s := hkey s p hG
        rw [List.filterMap_cons_some hG, lookupState,
          List.find?_cons_of_pos _ (by simp [hp1])]
    · have hnd2 := List.nodup_cons.1 hnd
      have hts : t ≠ s := fun hh => hnd2.1 (hh ▸ hmem)
      cases hG : H t with
      | none =>
        rw [List.filterMap_cons_none hG]
        exact ih hmem hnd2.2
      | some p =>
        have hp1 : p.1 = t := hkey t p hG
        rw [List.filterMap_cons_some hG, lookupState,
          List.find?_cons_of_neg _ (by simp [hp1, hts])]
        exact ih hmem hnd2.2

theorem lookupState_map_keyed {α : Type} (states : List String) (P : String → α) (s : String)
    (hs : s ∈ states) :
    lookupState (states.map (fun t => (t, P t))) s = some (P s) := by
  induction states with
  | nil => cases hs
  | cons t ts ih =>
    rw [List.map_cons]
    by_cases hts : t = s
    · subst hts
      rw [lookupState, List.find?_cons_of_pos _ (by simp)]
      rfl
    · rw [lookupState, List.find?_cons_of_neg _ (by simp [hts])]
      refine ih ?_
      rcases List.mem_cons.1 hs with rfl | hm
      · exact absurd rfl hts
      · exact hm

/-!
## `uniqueStates` and `stateGroup`
-/

theorem mem_foldl_uniq (df : List R) :
    ∀ (acc : List String), ∀ s ∈ acc, s ∈ df.foldl
        (fun acc r => if acc.contains r.TestState then acc else acc ++ [r.TestState]) acc := by
  induction df with
  | nil => intro acc s hs; simpa using hs
  | cons r rs ih =>
    intro acc s hs
    rw [List.foldl_cons]
    apply ih
    by_cases hc : acc.contains r.TestState
    · rwa [if_pos hc]
    · rw [if_neg hc]
      exact List.mem_append_left _ hs

theorem states_mem_foldl (df : List R) :
    ∀ (acc : List String) (r : R), r ∈ df → r.TestState ∈ df.foldl
        (fun acc r => if acc.contains r.TestState then acc else acc ++ [r.TestState]) acc := by
  induction df with
  | nil => intro acc r hr; cases hr
  | cons x xs ih =>
    intro acc r hr
    rw [List.foldl_cons]
    rcases List.mem_cons.1 hr with rfl | hmem
    · apply mem_foldl_uniq
      by_cases hc : acc.contains r.TestState
      · rw [if_pos hc]
        simpa using hc
      · rw [if_neg hc]
        simp
    · exact ih _ r hmem

theorem mem_uniqueStates_of_mem (df : List R) (r : R) (hr : r ∈ df) :
    r.TestState ∈ uniqueStates df := by
  rw [uniqueStates]
  exact states_mem_foldl df [] r hr

theorem nodup_foldl_uniq (df : List R) :
    ∀ (acc : List String), acc.Nodup → (df.foldl
        (fun acc r => if acc.contains r.TestState then acc else acc ++ [r.TestState]) acc).Nodup := by
  induction df with
  | nil => intro acc h; simpa using h
  | cons x xs ih =>
    intro acc h
    rw [List.foldl_cons]
    apply ih
    by_cases hc : acc.contains x.TestState
    · rwa [if_pos hc]
    · rw [if_neg hc]
      have hnm : x.TestState ∉ acc := by simpa using hc
      simp [List.nodup_append, h, hnm]

theorem uniqueStates_nodup (df : List R) : (uniqueStates df).Nodup := by
  rw [uniqueStates]
  exact nodup_foldl_uniq df [] List.nodup_nil

theorem mem_stateGroup (df : List R) (r : R) (hr : r ∈ df) :
    r ∈ stateGroup df r.TestState := by
  rw [stateGroup, List.mem_filter]
  exact ⟨hr, by simp⟩

theorem mem_of_mem_stateGroup (df : List R) (s : String) (r : R)
    (hr : r ∈ stateGroup df s) : r ∈ df :=
  (List.mem_filter.1 hr).1

theorem headD_mem {α : Type} (l : List α) (d : α) (h : l ≠ []) : l.headD d ∈ l := by
  cases l with
  | nil => exact absurd rfl h
  | cons x xs => exact List.mem_cons_self x xs

theorem getLastD_mem {α : Type} (l : List α) (d : α) (h : l ≠ []) : l.getLastD d ∈ l := by
  induction l with
  | nil => exact absurd rfl h
  | cons x xs ih =>
    cases xs with
    | nil => simp [List.getLastD]
    | cons y ys =>
      rw [List.getLastD_cons]
      exact List.mem_cons_of_mem x (ih (by simp))

theorem mem_sortByTs (g : List R) (r : R) : r ∈ sortByTs g ↔ r ∈ g := by
  rw [sortByTs]
  exact List.mem_insertionSort _

theorem sortByTs_length (g : List R) : (sortByTs g).length = g.length := by
  rw [sortByTs]
  exact (List.perm_insertionSort _ g).length_eq

/-- `lookupState` on `validate_charge_accumulation`: under the real-charge
gate, a state label with at least two rows is mapped to the record built by
the loop body. -/
theorem validate_lookup (df : List R) (s : String)
    (hmem : s ∈ uniqueStates df) (hgate : hasRealChargeData df = true)
    (hlen : 2 ≤ (stateGroup df s).length) :
    lookupState (validate_charge_accumulation df) s
      = some (chargeResultFor (sortByTs (stateGroup df s)) (stateGroup df s).length) := by
  have hbody : validate_charge_accumulation df
      = (uniqueStates df).filterMap (fun t =>
          if (stateGroup df t).length < 2 then none
          else some (t, chargeResultFor (sortByTs (stateGroup df t)) (stateGroup df t).length)) := by
    rw [validate_charge_accumulation, hgate]
    rfl
  have hk : ∀ (t : String) (p : String × ChargeResult),
      (if (stateGroup df t).length < 2 then none
       else some (t, chargeResultFor (sortByTs (stateGroup df t)) (stateGroup df t).length))
        = some p → p.1 = t := by
    intro t p hp
    by_cases h2 : (stateGroup df t).length < 2
    · rw [if_pos h2] at hp
      cases hp
    · rw [if_neg h2] at hp
      rw [← Option.some.inj hp]
  rw [hbody, lookupState_filterMap_keyed _ _ _ hk hmem (uniqueStates_nodup df),
    if_neg (by omega)]
  rfl

/-- `lookupState` on `analyze_energy_consumption`: a state label with at
least two rows is mapped to the record built by the loop body. -/
theorem energy_lookup (df : List R) (s : String)
    (hmem : s ∈ uniqueStates df) (hlen : 2 ≤ (stateGroup df s).length) :
    lookupState (analyze_energy_consumption df) s
      = some (energyResultFor (sortByTs (stateGroup df s))) := by
  have hbody : analyze_energy_consumption df
      = (uniqueStates df).filterMap (fun t =>
          if (stateGroup df t).length < 2 then none
          else some (t, energyResultFor (sortByTs (stateGroup df t)))) := rfl
  have hk : ∀ (t : String) (p : String × EnergyResult),
      (if (stateGroup df t).length < 2 then none
       else some (t, energyResultFor (sortByTs (stateGroup df t)))) = some p → p.1 = t := by
    intro t p hp
    by_cases h2 : (stateGroup df t).length < 2
    · rw [if_pos h2] at hp
      cases hp
    · rw [if_neg h2] at hp
      rw [← Option.some.inj hp]
  rw [hbody, lookupState_filterMap_keyed _ _ _ hk hmem (uniqueStates_nodup df),
    if_neg (by omega)]
  rfl

/-- `lookupState` on `analyze_dual_sensors`: every occurring state label is
mapped to the record built by the loop body. -/
theorem dual_lookup (df : List R) (s : String) (hmem : s ∈ uniqueStates df) :
    lookupState (analyze_dual_sensors df) s
      = some (sensorComparisonFor (stateGroup df s)) := by
  rw [analyze_dual_sensors]
  exact lookupState_map_keyed _ _ s hmem


/-!
## The claims
-/


/-- C2: the claim states that segmentation groups strictly by consecutive
equal (run_id, state) pairs, so the two one-row windows of
`MCU_Active_SD_Idle_Standby` would each be skipped (fewer than 2 samples) and
the charge validator would produce no entry for that state.  In the code the
grouping is `df[df['TestState'] == state]` over the whole file: the two
windows are merged into one two-row group and the validator produces an entry
with `sample_count = 2`. -/
theorem C2_counterexample :
    dfC2.map (fun r => (r.TestRunID, r.TestState))
      = [("RUN_042", "MCU_Active_SD_Idle_Standby"), ("RUN_042", "Sustained_SD_Write"),
         ("RUN_042", "MCU_Active_SD_Idle_Standby")] ∧
    (lookupState (validate_charge_accumulation dfC2) "MCU_Active_SD_Idle_Standby").map
        (fun r => r.sample_count) = some 2 := by
  constructor
  · rfl
  · have hmem : "MCU_Active_SD_Idle_Standby" ∈ uniqueStates dfC2 := by decide
    have hgate : hasRealChargeData dfC2 = true := by
      norm_num [hasRealChargeData, dfC2, rC2a, rC2b, rC2c, baseR, psum, notNan, PF.eqb]
    have hlen : 2 ≤ (stateGroup dfC2 "MCU_Active_SD_Idle_Standby").length := by decide
    rw [validate_lookup dfC2 _ hmem hgate hlen]
    rfl

/-- C2 (amended): grouping is by state label over the whole input, ignoring
`run_id` and contiguity: any two rows carrying the same state label land in
the one group for that label (disjoint time windows are merged), and the loop
runs exactly once per distinct label (`uniqueStates` has no duplicates). -/
theorem C2_theorem (df : List R) (a b : R) (ha : a ∈ df) (hb : b ∈ df)
    (hab : a.TestState = b.TestState) :
    a ∈ stateGroup df a.TestState ∧ b ∈ stateGroup df a.TestState ∧
      (uniqueStates df).Nodup := by
  refine ⟨mem_stateGroup df a ha, ?_, uniqueStates_nodup df⟩
  rw [hab]
  exact mem_stateGroup df b hb

/-- C2 witness: the amended grouping statement at the concrete two-window
input - the two non-contiguous rows of the repeated state land in the same
group. -/
theorem C2_witness :
    rC2a ∈ stateGroup dfC2 rC2a.TestState ∧ rC2c ∈ stateGroup dfC2 rC2a.TestState ∧
      (uniqueStates dfC2).Nodup :=
  C2_theorem dfC2 rC2a rC2c (List.mem_cons_self _ _)
    (List.mem_cons_of_mem _ (List.mem_cons_of_mem _ (List.mem_cons_self _ _))) rfl


/-- C1: the claim states that a zero reference denominator yields a distinct
`undefined` tier which no consumer maps to POOR.  In the code the error is
the sentinel `float('inf')` and the report generator's tier expression
(`... < 5 ... < 15 ... else "POOR"`) classifies it as POOR: there is no
fourth tier. -/
theorem C1_counterexample :
    (lookupState (validate_charge_accumulation dfC1) "Sustained_SD_Write").map
        (fun res => (res.batt_hardware_charge_C, res.batt_error_pct,
          validation_status res.batt_error_pct))
      = some (PF.fin 0, PF.pinf, Status.poor) := by
  have hmem : "Sustained_SD_Write" ∈ uniqueStates dfC1 := by decide
  have hgate : hasRealChargeData dfC1 = true := by
    norm_num [hasRealChargeData, dfC1, baseR, psum, notNan, PF.eqb]
  have hlen : 2 ≤ (stateGroup dfC1 "Sustained_SD_Write").length := by decide
  rw [validate_lookup dfC1 _ hmem hgate hlen]
  have hsort : sortByTs (stateGroup dfC1 "Sustained_SD_Write") = dfC1 := rfl
  rw [hsort]
  norm_num [chargeResultFor, validation_status, dfC1, baseR, psum, notNan, PF.eqb,
    PF.div_fin, PF.blt]

/-- C1 (amended): when the hardware charge delta is zero, the error is
reported as the sentinel `+inf` (not a crash and not a distinct tier), and
the report generator's tier classification maps it to POOR - the code has no
fourth `undefined` tier. -/
theorem C1_theorem (df : List R) (s : String) (r0 : R) (hr0 : r0 ∈ df) (hs0 : r0.TestState = s)
    (hgate : hasRealChargeData df = true)
    (hlen : 2 ≤ (stateGroup df s).length)
    (hdelta : PF.sub ((sortByTs (stateGroup df s)).getLastD defaultR).Batt_Charge_C
        ((sortByTs (stateGroup df s)).headD defaultR).Batt_Charge_C = PF.fin 0) :
    ∃ res, lookupState (validate_charge_accumulation df) s = some res ∧
      res.batt_error_pct = PF.pinf ∧
      validation_status res.batt_error_pct = Status.poor := by
  have hmem : s ∈ uniqueStates df := hs0 ▸ mem_uniqueStates_of_mem df r0 hr0
  rw [validate_lookup df s hmem hgate hlen]
  have herr : (chargeResultFor (sortByTs (stateGroup df s)) (stateGroup df s).length).batt_error_pct
      = PF.pinf := by
    simp only [chargeResultFor]
    rw [hdelta]
    simp
  exact ⟨_, rfl, herr, by rw [herr]; rfl⟩

/-- C1 witness data and application: the amended statement at the concrete
zero-delta input. -/
theorem C1_witness :
    ∃ res, lookupState (validate_charge_accumulation dfC1) "Sustained_SD_Write" = some res ∧
      res.batt_error_pct = PF.pinf ∧
      validation_status res.batt_error_pct = Status.poor := by
  refine C1_theorem dfC1 "Sustained_SD_Write" _ (List.mem_cons_self _ _) rfl ?_ (by decide) ?_
  · norm_num [hasRealChargeData, dfC1, baseR, psum, notNan, PF.eqb]
  · rw [show sortByTs (stateGroup dfC1 "Sustained_SD_Write") = dfC1 from rfl]
    show PF.sub (PF.fin 1) (PF.fin 1) = PF.fin 0
    simp


/-- C4: the claim states the efficiency is reported as exactly 0 ONLY when
the source total is exactly zero.  Here the solar total is 2 (nonzero), yet
the reported efficiency is exactly 0 (because the load total is 0). -/
theorem C4_counterexample :
    (analyze_power_flow dfC4).system_efficiency_pct = PF.fin 0 ∧
      psum (dfC4.map (fun r => r.Solar_Power_mW)) = PF.fin 2 := by
  have hsum : psum (dfC4.map (fun r => r.Solar_Power_mW)) = .fin 2 := by
    simp [dfC4, psum, notNan]
  have hload : psum (dfC4.map (fun r => r.Load_Power_mW)) = .fin 0 := by
    simp [dfC4, psum, notNan]
  have heff : (analyze_power_flow dfC4).system_efficiency_pct
      = if (PF.fin 0).blt (psum (dfC4.map (fun r => r.Solar_Power_mW))) then
          PF.mul (PF.div (psum (dfC4.map (fun r => r.Load_Power_mW)))
            (psum (dfC4.map (fun r => r.Solar_Power_mW)))) (.fin 100)
        else .fin 0 := rfl
  refine ⟨?_, hsum⟩
  rw [heff, hsum, hload, PF.blt_fin, if_pos (by norm_num)]
  rw [PF.div_fin 0 2 (by norm_num), PF.mul_fin]
  norm_num

/-- C4 (amended): the efficiency equals (load total / solar total) * 100 when
the solar total is strictly positive and is the literal 0 otherwise; a zero
source total therefore yields 0 (not an undefined value), but 0 is also
reported when the load total is 0 or the source total is negative, so a
reported 0 does not imply a zero source total. -/
theorem C4_theorem (df : List GRec) (s l : ℚ)
    (hs : psum (df.map (fun r => r.Solar_Power_mW)) = .fin s)
    (hl : psum (df.map (fun r => r.Load_Power_mW)) = .fin l) :
    ((analyze_power_flow df).system_efficiency_pct
        = if 0 < s then .fin (l / s * 100) else .fin 0) ∧
      ((analyze_power_flow df).system_efficiency_pct = .fin 0 ↔ (¬ 0 < s ∨ l = 0)) := by
  have heff : (analyze_power_flow df).system_efficiency_pct
      = if (PF.fin 0).blt (psum (df.map (fun r => r.Solar_Power_mW))) then
          PF.mul (PF.div (psum (df.map (fun r => r.Load_Power_mW)))
            (psum (df.map (fun r => r.Solar_Power_mW)))) (.fin 100)
        else .fin 0 := rfl
  rw [heff, hs, hl, PF.blt_fin]
  by_cases hpos : 0 < s
  · have hs0 : s ≠ 0 := ne_of_gt hpos
    rw [if_pos (by simpa using hpos), if_pos hpos, PF.div_fin _ _ hs0, PF.mul_fin]
    refine ⟨rfl, ?_⟩
    constructor
    · intro h
      have : l / s * 100 = 0 := by simpa using h
      rcases mul_eq_zero.1 this with h1 | h1
      · rcases div_eq_zero_iff.1 h1 with h2 | h2
        · exact Or.inr h2
        · exact absurd h2 hs0
      · norm_num at h1
    · rintro (h | rfl)
      · exact absurd hpos h
      · simp
  · rw [if_neg (by simpa using hpos), if_neg hpos]
    exact ⟨rfl, by simp [hpos]⟩


/-- C4 witness: the amended efficiency statement at a concrete input with
positive solar total. -/
theorem C4_witness :
    ((analyze_power_flow dfW4).system_efficiency_pct
        = if 0 < (2 : ℚ) then .fin (1 / 2 * 100) else .fin 0) ∧
      ((analyze_power_flow dfW4).system_efficiency_pct = .fin 0 ↔ (¬ 0 < (2 : ℚ) ∨ (1 : ℚ) = 0)) :=
  C4_theorem dfW4 2 1 (by simp [dfW4, psum, notNan]) (by simp [dfW4, psum, notNan])


/-- C5: the claim quantifies over every segment with at least 2 samples and a
nonzero hardware delta.  Here such a segment exists (2 samples, battery
hardware delta 2), yet `validate_charge_accumulation` returns the empty
result set, because the whole computation is skipped when both charge columns
sum to zero. -/
theorem C5_counterexample :
    validate_charge_accumulation dfC5 = [] ∧
    (stateGroup dfC5 "Sustained_SD_Write").length = 2 ∧
    PF.sub ((sortByTs (stateGroup dfC5 "Sustained_SD_Write")).getLastD defaultR).Batt_Charge_C
      ((sortByTs (stateGroup dfC5 "Sustained_SD_Write")).headD defaultR).Batt_Charge_C
      = PF.fin 2 := by
  refine ⟨?_, by decide, ?_⟩
  · have hgate : hasRealChargeData dfC5 = false := by
      norm_num [hasRealChargeData, dfC5, baseR, psum, notNan, PF.eqb]
    rw [validate_charge_accumulation, hgate]
    rfl
  · rw [show sortByTs (stateGroup dfC5 "Sustained_SD_Write") = dfC5 from rfl]
    show PF.sub (PF.fin 1) (PF.fin (-1)) = PF.fin 2
    norm_num

/-- The battery-side fields of the loop-body record, on finite inputs with a
nonzero hardware delta. -/
theorem chargeResultFor_batt (sd : List R) (n : ℕ) (m ql qf : ℚ)
    (hm : psum (sd.map (fun r => r.Batt_Current_mA)) = .fin m)
    (hl : (sd.getLastD defaultR).Batt_Charge_C = .fin ql)
    (hf : (sd.headD defaultR).Batt_Charge_C = .fin qf)
    (hne : ql - qf ≠ 0) :
    (chargeResultFor sd n).batt_manual_charge_C = .fin (m / 1000 * sampling_interval_s) ∧
    (chargeResultFor sd n).batt_hardware_charge_C = .fin (ql - qf) ∧
    (chargeResultFor sd n).batt_error_pct
      = .fin (|m / 1000 * sampling_interval_s - (ql - qf)| / |ql - qf| * 100) ∧
    (chargeResultFor sd n).sample_count = n := by
  simp only [chargeResultFor]
  rw [hm, hl, hf, PF.div_fin _ _ (by norm_num), PF.mul_fin, PF.sub_fin]
  refine ⟨rfl, rfl, ?_, trivial⟩
  rw [PF.eqb_fin, decide_eq_false hne]
  rw [show (!false) = true from rfl, if_pos rfl]
  rw [PF.sub_fin, PF.abs_fin, PF.abs_fin,
    PF.div_fin _ _ (abs_ne_zero.2 hne), PF.mul_fin]

/-- C5 (amended): provided the file-level real-charge-data gate passes (at
least one charge column has a nonzero sum), every state group with at least 2
samples and a nonzero battery hardware delta gets exactly the claimed
numbers: manual charge = sum(current_mA)/1000 x interval (interval = 1 s),
hardware charge = last-minus-first accumulator value after sorting by
timestamp, error% = |manual - hardware| / |hardware| x 100. -/
theorem C5_theorem (df : List R) (s : String) (r0 : R) (hr0 : r0 ∈ df) (hs0 : r0.TestState = s)
    (hgate : hasRealChargeData df = true)
    (hlen : 2 ≤ (stateGroup df s).length)
    (hfin : ∀ r ∈ stateGroup df s, r.Batt_Current_mA.isFinite = true)
    (ql qf : ℚ)
    (hlast : ((sortByTs (stateGroup df s)).getLastD defaultR).Batt_Charge_C = .fin ql)
    (hfirst : ((sortByTs (stateGroup df s)).headD defaultR).Batt_Charge_C = .fin qf)
    (hne : ql - qf ≠ 0) :
    ∃ res, lookupState (validate_charge_accumulation df) s = some res ∧
      res.sample_count = (stateGroup df s).length ∧
      res.batt_manual_charge_C
        = .fin ((((stateGroup df s).map (fun r => r.Batt_Current_mA.toRat)).sum / 1000)
            * sampling_interval_s) ∧
      res.batt_hardware_charge_C = .fin (ql - qf) ∧
      res.batt_error_pct
        = .fin (|(((stateGroup df s).map (fun r => r.Batt_Current_mA.toRat)).sum / 1000)
              * sampling_interval_s - (ql - qf)| / |ql - qf| * 100) := by
  have hmem : s ∈ uniqueStates df := hs0 ▸ mem_uniqueStates_of_mem df r0 hr0
  rw [validate_lookup df s hmem hgate hlen]
  have hcfin : ∀ x ∈ (sortByTs (stateGroup df s)).map (fun r => r.Batt_Current_mA),
      x.isFinite = true := by
    intro x hx
    obtain ⟨r, hrm, rfl⟩ := List.mem_map.1 hx
    exact hfin r ((mem_sortByTs _ r).1 hrm)
  have hpsum : psum ((sortByTs (stateGroup df s)).map (fun r => r.Batt_Current_mA))
      = .fin (((stateGroup df s).map (fun r => r.Batt_Current_mA.toRat)).sum) := by
    rw [psum_of_finite _ hcfin, List.map_map]
    congr 1
    exact List.Perm.sum_eq
      ((List.perm_insertionSort (fun a b => a.EntryTimestamp_ms ≤ b.EntryTimestamp_ms)
        (stateGroup df s)).map _)
  obtain ⟨h1, h2, h3, h4⟩ := chargeResultFor_batt (sortByTs (stateGroup df s))
    (stateGroup df s).length _ ql qf hpsum hlast hfirst hne
  exact ⟨_, rfl, h4, h1, h2, h3⟩


/-- C5 witness: the amended statement at the concrete clean segment. -/
theorem C5_witness :
    ∃ res, lookupState (validate_charge_accumulation dfW5) "Sustained_SD_Write" = some res ∧
      res.sample_count = (stateGroup dfW5 "Sustained_SD_Write").length ∧
      res.batt_manual_charge_C
        = .fin ((((stateGroup dfW5 "Sustained_SD_Write").map
            (fun r => r.Batt_Current_mA.toRat)).sum / 1000) * sampling_interval_s) ∧
      res.batt_hardware_charge_C = .fin ((2 : ℚ) - 1) ∧
      res.batt_error_pct
        = .fin (|(((stateGroup dfW5 "Sustained_SD_Write").map
              (fun r => r.Batt_Current_mA.toRat)).sum / 1000)
            * sampling_interval_s - ((2 : ℚ) - 1)| / |(2 : ℚ) - 1| * 100) := by
  refine C5_theorem dfW5 "Sustained_SD_Write" _ (List.mem_cons_self _ _) rfl ?_ (by decide)
    (by decide) 2 1 ?_ ?_ (by norm_num)
  · norm_num [hasRealChargeData, dfW5, baseR, psum, notNan, PF.eqb]
  · rw [show sortByTs (stateGroup dfW5 "Sustained_SD_Write") = dfW5 from rfl]
    rfl
  · rw [show sortByTs (stateGroup dfW5 "Sustained_SD_Write") = dfW5 from rfl]
    rfl

/-- On a state group whose two redundant channels agree row-for-row (finite
values), the mean signed difference is 0, the max absolute difference is 0,
and the Pearson correlation is exactly 1 when the group has at least two
rows and the common series is not constant - NaN otherwise. -/
theorem identical_channel_fields (g : List R) (hg : g ≠ []) (fB fL : R → PF)
    (hid : ∀ r ∈ g, fB r = fL r)
    (hf : ∀ r ∈ g, (fB r).isFinite = true) :
    pmean (g.map (fun r => PF.sub (fB r) (fL r))) = .fin 0 ∧
    pmax ((g.map (fun r => PF.sub (fB r) (fL r))).map PF.abs) = .fin 0 ∧
    pcorr (g.map fB) (g.map fL)
      = (if 2 ≤ g.length ∧ ¬ allEqQ (g.map (fun r => (fB r).toRat)) then .fin 1 else .nan) := by
  have hlen0 : g.length ≠ 0 := by simpa [List.length_eq_zero] using hg
  have hdiff : g.map (fun r => PF.sub (fB r) (fL r)) = List.replicate g.length (.fin 0) := by
    rw [← List.map_const']
    apply List.map_congr_left
    intro r hr
    obtain ⟨q, hq⟩ := (PF.isFinite_iff _).1 (hf r hr)
    rw [← hid r hr, hq, PF.sub_fin, sub_self]
  refine ⟨?_, ?_, ?_⟩
  · rw [hdiff]
    exact pmean_replicate _ hlen0 0
  · rw [hdiff, List.map_replicate]
    rw [show PF.abs (.fin 0) = .fin 0 by simp]
    exact pmax_replicate _ hlen0 0
  · have hfb : g.map fL = g.map fB := List.map_congr_left (fun r hr => (hid r hr).symm)
    rw [hfb]
    have hfin' : ∀ x ∈ g.map fB, x.isFinite = true := by
      intro x hx
      obtain ⟨r, hrm, rfl⟩ := List.mem_map.1 hx
      exact hf r hrm
    rw [pcorr_self_of_finite _ hfin', List.length_map, List.map_map]
    rfl


/-- C8: the claim states identical channels give correlation exactly 1.0
whenever the segment has at least 2 samples.  Here the segment has 2 samples
and identical channels, but the common series is constant, so the Pearson
denominator is 0 and pandas reports NaN (undefined), not 1.0. -/
theorem C8_counterexample :
    (stateGroup dfC8 "Sustained_SD_Write").length = 2 ∧
    (∀ r ∈ dfC8, r.Batt_Voltage_V = r.Load_Voltage_V) ∧
    (lookupState (analyze_dual_sensors dfC8) "Sustained_SD_Write").map
        (fun c => c.voltage_correlation) = some PF.nan := by
  refine ⟨by decide, by decide, ?_⟩
  rw [dual_lookup dfC8 _ (by decide)]
  simp only [Option.map_some']
  rw [show ((sensorComparisonFor (stateGroup dfC8 "Sustained_SD_Write")).voltage_correlation)
      = pcorr [PF.fin 4, PF.fin 4] [PF.fin 4, PF.fin 4] from rfl]
  rw [pcorr_self_of_finite _ (by decide), if_neg (by decide)]

/-- C8 (amended): on every state group whose redundant channels carry
identical per-row finite values, the mean signed difference and max absolute
difference are 0 for each field; the Pearson correlation is exactly 1.0 when
the group has at least 2 samples and the common series is non-constant, and
NaN (undefined) when the group has fewer than 2 samples or the series is
constant (zero variance). -/
theorem C8_theorem (df : List R) (s : String) (r0 : R) (hr0 : r0 ∈ df) (hs0 : r0.TestState = s)
    (hid : ∀ r ∈ stateGroup df s, r.Batt_Voltage_V = r.Load_Voltage_V ∧
        r.Batt_Current_mA = r.Load_Current_mA ∧ r.Batt_Power_mW = r.Load_Power_mW)
    (hfin : ∀ r ∈ stateGroup df s, r.Batt_Voltage_V.isFinite = true ∧
        r.Batt_Current_mA.isFinite = true ∧ r.Batt_Power_mW.isFinite = true) :
    ∃ c, lookupState (analyze_dual_sensors df) s = some c ∧
      c.avg_voltage_diff_V = .fin 0 ∧ c.avg_current_diff_mA = .fin 0 ∧
      c.avg_power_diff_mW = .fin 0 ∧
      c.max_voltage_diff_V = .fin 0 ∧ c.max_current_diff_mA = .fin 0 ∧
      c.max_power_diff_mW = .fin 0 ∧
      c.voltage_correlation = (if 2 ≤ (stateGroup df s).length ∧
          ¬ allEqQ ((stateGroup df s).map (fun r => r.Batt_Voltage_V.toRat))
          then .fin 1 else .nan) ∧
      c.current_correlation = (if 2 ≤ (stateGroup df s).length ∧
          ¬ allEqQ ((stateGroup df s).map (fun r => r.Batt_Current_mA.toRat))
          then .fin 1 else .nan) ∧
      c.power_correlation = (if 2 ≤ (stateGroup df s).length ∧
          ¬ allEqQ ((stateGroup df s).map (fun r => r.Batt_Power_mW.toRat))
          then .fin 1 else .nan) := by
  have hmem : s ∈ uniqueStates df := hs0 ▸ mem_uniqueStates_of_mem df r0 hr0
  rw [dual_lookup df s hmem]
  have hg : stateGroup df s ≠ [] :=
    List.ne_nil_of_mem (hs0 ▸ mem_stateGroup df r0 hr0)
  obtain ⟨hV1, hV2, hV3⟩ := identical_channel_fields (stateGroup df s) hg
    (fun r => r.Batt_Voltage_V) (fun r => r.Load_Voltage_V)
    (fun r hr => (hid r hr).1) (fun r hr => (hfin r hr).1)
  obtain ⟨hC1, hC2, hC3⟩ := identical_channel_fields (stateGroup df s) hg
    (fun r => r.Batt_Current_mA) (fun r => r.Load_Current_mA)
    (fun r hr => (hid r hr).2.1) (fun r hr => (hfin r hr).2.1)
  obtain ⟨hP1, hP2, hP3⟩ := identical_channel_fields (stateGroup df s) hg
    (fun r => r.Batt_Power_mW) (fun r => r.Load_Power_mW)
    (fun r hr => (hid r hr).2.2) (fun r hr => (hfin r hr).2.2)
  exact ⟨_, rfl, hV1, hC1, hP1, hV2, hC2, hP2, hV3, hC3, hP3⟩


/-- C8 witness: the amended statement at a concrete identical-channel
group. -/
theorem C8_witness :
    ∃ c, lookupState (analyze_dual_sensors dfW8) "Sustained_SD_Write" = some c ∧
      c.avg_voltage_diff_V = .fin 0 ∧ c.avg_current_diff_mA = .fin 0 ∧
      c.avg_power_diff_mW = .fin 0 ∧
      c.max_voltage_diff_V = .fin 0 ∧ c.max_current_diff_mA = .fin 0 ∧
      c.max_power_diff_mW = .fin 0 ∧
      c.voltage_correlation = (if 2 ≤ (stateGroup dfW8 "Sustained_SD_Write").length ∧
          ¬ allEqQ ((stateGroup dfW8 "Sustained_SD_Write").map (fun r => r.Batt_Voltage_V.toRat))
          then .fin 1 else .nan) ∧
      c.current_correlation = (if 2 ≤ (stateGroup dfW8 "Sustained_SD_Write").length ∧
          ¬ allEqQ ((stateGroup dfW8 "Sustained_SD_Write").map (fun r => r.Batt_Current_mA.toRat))
          then .fin 1 else .nan) ∧
      c.power_correlation = (if 2 ≤ (stateGroup dfW8 "Sustained_SD_Write").length ∧
          ¬ allEqQ ((stateGroup dfW8 "Sustained_SD_Write").map (fun r => r.Batt_Power_mW.toRat))
          then .fin 1 else .nan) :=
  C8_theorem dfW8 "Sustained_SD_Write" _ (List.mem_cons_self _ _) rfl
    (by decide) (by decide)


/-- C7: the claim states a row whose load-channel power is unparseable is
dropped.  In the code only the battery power column is consulted by
`dropna`: the row with unparseable load power is kept (one row survives the
load). -/
theorem C7_counterexample :
    cellAt NEW_COLUMN_NAMES rowC7 "Load_Power_mW" = Cell.str "garbage" ∧
    ∃ g, clean_and_load_data fC7 = .ok g ∧ g.rows.length = 1 := by
  exact ⟨rfl, ⟨_, rfl, rfl⟩⟩


/-- C7 witness: the amended drop rule at a concrete mixed table. -/
theorem C7_witness :
    clean_and_load_data ⟨NEW_COLUMN_NAMES, rowsW7⟩ =
      .ok ⟨NEW_COLUMN_NAMES,
           (rowsW7.filter (fun r => (r.getD 5 .nan).isNum)).map (coerceRow NEW_COLUMN_NAMES)⟩ :=
  C7_theorem rowsW7 (by decide)


/-- C6: the claim states the filled-in fields are tagged
`is_placeholder = true` / `is_synthesized = true`.  The converted frame has
exactly the 15 canonical columns and no provenance column of any kind. -/
theorem C6_counterexample :
    (convertOldFormat fC6).header = NEW_COLUMN_NAMES ∧
    "is_placeholder" ∉ (convertOldFormat fC6).header ∧
    "is_synthesized" ∉ (convertOldFormat fC6).header := by
  exact ⟨rfl, by decide, by decide⟩

/-- C6 (amended): converting the legacy 6-column format fills each missing
accumulator/diagnostic column with the placeholder 0 and fills the missing
load channel by duplicating the battery channel's voltage/current/power cells
row-for-row, but records no provenance tag: no `is_placeholder` or
`is_synthesized` column exists in the result (downstream code instead detects
placeholder charge data by testing whether the charge columns sum to
zero). -/
theorem C6_theorem (rows : List (List Cell)) (h : ∀ r ∈ rows, r.length = 6) :
    (convertOldFormat ⟨OLD_COLUMN_NAMES, rows⟩).header = NEW_COLUMN_NAMES ∧
    "is_placeholder" ∉ (convertOldFormat ⟨OLD_COLUMN_NAMES, rows⟩).header ∧
    "is_synthesized" ∉ (convertOldFormat ⟨OLD_COLUMN_NAMES, rows⟩).header ∧
    getCol (convertOldFormat ⟨OLD_COLUMN_NAMES, rows⟩) "Load_Voltage_V"
      = getCol ⟨OLD_COLUMN_NAMES, rows⟩ "Voltage_V" ∧
    getCol (convertOldFormat ⟨OLD_COLUMN_NAMES, rows⟩) "Load_Current_mA"
      = getCol ⟨OLD_COLUMN_NAMES, rows⟩ "Current_mA" ∧
    getCol (convertOldFormat ⟨OLD_COLUMN_NAMES, rows⟩) "Load_Power_mW"
      = getCol ⟨OLD_COLUMN_NAMES, rows⟩ "Power_mW" ∧
    getCol (convertOldFormat ⟨OLD_COLUMN_NAMES, rows⟩) "Batt_Energy_J"
      = List.replicate rows.length (Cell.num 0) ∧
    getCol (convertOldFormat ⟨OLD_COLUMN_NAMES, rows⟩) "Batt_Charge_C"
      = List.replicate rows.length (Cell.num 0) ∧
    getCol (convertOldFormat ⟨OLD_COLUMN_NAMES, rows⟩) "Load_Energy_J"
      = List.replicate rows.length (Cell.num 0) ∧
    getCol (convertOldFormat ⟨OLD_COLUMN_NAMES, rows⟩) "Load_Charge_C"
      = List.replicate rows.length (Cell.num 0) := by
  rw [convertOldFormat_spec rows h]
  refine ⟨rfl, ?_, ?_, ?_, ?_, ?_, ?_, ?_, ?_, ?_⟩
  · show "is_placeholder" ∉ NEW_COLUMN_NAMES
    decide
  · show "is_synthesized" ∉ NEW_COLUMN_NAMES
    decide
  · rw [getCol_frame NEW_COLUMN_NAMES _ "Load_Voltage_V" 9 rfl,
      getCol_frame OLD_COLUMN_NAMES _ "Voltage_V" 3 rfl, List.map_map]
    apply List.map_congr_left
    intro r hr
    obtain ⟨c0, c1, c2, c3, c4, c5, rfl⟩ := exists_six r (h r hr)
    rfl
  · rw [getCol_frame NEW_COLUMN_NAMES _ "Load_Current_mA" 10 rfl,
      getCol_frame OLD_COLUMN_NAMES _ "Current_mA" 4 rfl, List.map_map]
    apply List.map_congr_left
    intro r hr
    obtain ⟨c0, c1, c2, c3, c4, c5, rfl⟩ := exists_six r (h r hr)
    rfl
  · rw [getCol_frame NEW_COLUMN_NAMES _ "Load_Power_mW" 11 rfl,
      getCol_frame OLD_COLUMN_NAMES _ "Power_mW" 5 rfl, List.map_map]
    apply List.map_congr_left
    intro r hr
    obtain ⟨c0, c1, c2, c3, c4, c5, rfl⟩ := exists_six r (h r hr)
    rfl
  · rw [getCol_frame NEW_COLUMN_NAMES _ "Batt_Energy_J" 6 rfl, List.map_map,
      ← List.map_const']
    apply List.map_congr_left
    intro r hr
    obtain ⟨c0, c1, c2, c3, c4, c5, rfl⟩ := exists_six r (h r hr)
    rfl
  · rw [getCol_frame NEW_COLUMN_NAMES _ "Batt_Charge_C" 7 rfl, List.map_map,
      ← List.map_const']
    apply List.map_congr_left
    intro r hr
    obtain ⟨c0, c1, c2, c3, c4, c5, rfl⟩ := exists_six r (h r hr)
    rfl
  · rw [getCol_frame NEW_COLUMN_NAMES _ "Load_Energy_J" 12 rfl, List.map_map,
      ← List.map_const']
    apply List.map_congr_left
    intro r hr
    obtain ⟨c0, c1, c2, c3, c4, c5, rfl⟩ := exists_six r (h r hr)
    rfl
  · rw [getCol_frame NEW_COLUMN_NAMES _ "Load_Charge_C" 13 rfl, List.map_map,
      ← List.map_const']
    apply List.map_congr_left
    intro r hr
    obtain ⟨c0, c1, c2, c3, c4, c5, rfl⟩ := exists_six r (h r hr)
    rfl

/-- C6 witness: the amended conversion statement at the concrete one-row
legacy frame. -/
theorem C6_witness :
    (convertOldFormat ⟨OLD_COLUMN_NAMES,
        [[.str "RUN_042", .str "Sustained_SD_Write", .num 0, .num 4, .num 100, .num 400]]⟩).header
      = NEW_COLUMN_NAMES ∧
    "is_placeholder" ∉ (convertOldFormat ⟨OLD_COLUMN_NAMES,
        [[.str "RUN_042", .str "Sustained_SD_Write", .num 0, .num 4, .num 100, .num 400]]⟩).header ∧
    "is_synthesized" ∉ (convertOldFormat ⟨OLD_COLUMN_NAMES,
        [[.str "RUN_042", .str "Sustained_SD_Write", .num 0, .num 4, .num 100, .num 400]]⟩).header ∧
    getCol (convertOldFormat ⟨OLD_COLUMN_NAMES,
        [[.str "RUN_042", .str "Sustained_SD_Write", .num 0, .num 4, .num 100, .num 400]]⟩)
        "Load_Voltage_V"
      = getCol ⟨OLD_COLUMN_NAMES,
          [[.str "RUN_042", .str "Sustained_SD_Write", .num 0, .num 4, .num 100, .num 400]]⟩
          "Voltage_V" ∧
    getCol (convertOldFormat ⟨OLD_COLUMN_NAMES,
        [[.str "RUN_042", .str "Sustained_SD_Write", .num 0, .num 4, .num 100, .num 400]]⟩)
        "Load_Current_mA"
      = getCol ⟨OLD_COLUMN_NAMES,
          [[.str "RUN_042", .str "Sustained_SD_Write", .num 0, .num 4, .num 100, .num 400]]⟩
          "Current_mA" ∧
    getCol (convertOldFormat ⟨OLD_COLUMN_NAMES,
        [[.str "RUN_042", .str "Sustained_SD_Write", .num 0, .num 4, .num 100, .num 400]]⟩)
        "Load_Power_mW"
      = getCol ⟨OLD_COLUMN_NAMES,
          [[.str "RUN_042", .str "Sustained_SD_Write", .num 0, .num 4, .num 100, .num 400]]⟩
          "Power_mW" ∧
    getCol (convertOldFormat ⟨OLD_COLUMN_NAMES,
        [[.str "RUN_042", .str "Sustained_SD_Write", .num 0, .num 4, .num 100, .num 400]]⟩)
        "Batt_Energy_J"
      = List.replicate 1 (Cell.num 0) ∧
    getCol (convertOldFormat ⟨OLD_COLUMN_NAMES,
        [[.str "RUN_042", .str "Sustained_SD_Write", .num 0, .num 4, .num 100, .num 400]]⟩)
        "Batt_Charge_C"
      = List.replicate 1 (Cell.num 0) ∧
    getCol (convertOldFormat ⟨OLD_COLUMN_NAMES,
        [[.str "RUN_042", .str "Sustained_SD_Write", .num 0, .num 4, .num 100, .num 400]]⟩)
        "Load_Energy_J"
      = List.replicate 1 (Cell.num 0) ∧
    getCol (convertOldFormat ⟨OLD_COLUMN_NAMES,
        [[.str "RUN_042", .str "Sustained_SD_Write", .num 0, .num 4, .num 100, .num 400]]⟩)
        "Load_Charge_C"
      = List.replicate 1 (Cell.num 0) :=
  C6_theorem [[.str "RUN_042", .str "Sustained_SD_Write", .num 0, .num 4, .num 100, .num 400]]
    (by decide)


/-- C3: the claim states the whole load operation fails with a
`SchemaUnrecognized` error on a file with no mappable power column.  The
code prints an error message and returns the frame: the result is `.ok` with
every row kept, and no error value is ever constructed. -/
theorem C3_counterexample :
    clean_and_load_data fC3 = .ok fC3 := by
  rfl

/-- C3 (amended): for every input whose header is not the 6-column legacy
shape and contains no battery power column and no column containing both
"Power" and "mW", the load operation does not fail: it returns `.ok` with
the numerically-coerced frame and drops no row.  No code path constructs a
`SchemaUnrecognized` (or any other) error. -/
theorem C3_theorem (f : Frame)
    (h6 : f.header.length ≠ 6)
    (hB : f.header.contains "Battery_Power_mW" = false)
    (hb : f.header.contains "Batt_Power_mW" = false)
    (hp : f.header.filter isPowerMWName = []) :
    clean_and_load_data f = .ok (coerceNumeric f) ∧
      (coerceNumeric f).rows.length = f.rows.length := by
  constructor
  · have hstart : clean_and_load_data f
        = .ok (dropInvalidPower (coerceNumeric
            (if f.header.length = 6 then convertOldFormat f else f))) := rfl
    rw [hstart, if_neg h6]
    congr 1
    rw [dropInvalidPower, show (coerceNumeric f).header = f.header from rfl, hB, hb, hp]
    rfl
  · show (f.rows.map (coerceRow f.header)).length = f.rows.length
    exact List.length_map _ _

/-- C3 witness: the amended statement at the concrete power-less frame. -/
theorem C3_witness :
    clean_and_load_data fC3 = .ok (coerceNumeric fC3) ∧
      (coerceNumeric fC3).rows.length = fC3.rows.length :=
  C3_theorem fC3 (by decide) (by decide) (by decide) (by decide)

/-- C9: modelled from the spec (no repairer code exists under src/; spec
section 4.3).  The Anomaly Repairer is idempotent: after one pass no row
carries the sentinel label in its run_id column, so a second pass is the
identity.  The hypothesis that the sentinel label is not the empty string is
needed because the carry-forward seed for rows before the first valid row is
the empty run_id. -/
theorem C9_theorem (sentinel : String) (hs : sentinel ≠ "") (rows : List RawRow) :
    repair sentinel (repair sentinel rows) = repair sentinel rows := by
  rw [repair, repair]
  apply repairRows_id
  exact repairRows_no_sentinel sentinel rows "" (fun h => hs h.symm)


/-- C9 witness: idempotence at a concrete corrupted table. -/
theorem C9_witness :
    repair "Sustained_SD_Write" (repair "Sustained_SD_Write" rowsC9)
      = repair "Sustained_SD_Write" rowsC9 :=
  C9_theorem "Sustained_SD_Write" (by decide) rowsC9

/-- C10: in `analyze_energy_consumption` the division by the segment duration
is unguarded: a state group with at least 2 rows whose first and last
timestamps coincide (after sorting) gets `duration_s = 0`, and its
average-power-from-energy value is computed as the division artifact `+inf`
(for a positive energy delta) instead of being reported undefined or skipped;
only the later error-percentage division is guarded (by its own denominator
test `avg_power_direct != 0`). -/
theorem C10_theorem (df : List R) (s : String) (r0 : R)
    (hr0 : r0 ∈ df) (hs0 : r0.TestState = s)
    (hlen : 2 ≤ (stateGroup df s).length)
    (hts : ((sortByTs (stateGroup df s)).getLastD defaultR).EntryTimestamp_ms
        = ((sortByTs (stateGroup df s)).headD defaultR).EntryTimestamp_ms)
    (d : ℚ) (hd : 0 < d)
    (hdelta : PF.sub ((sortByTs (stateGroup df s)).getLastD defaultR).Batt_Energy_J
        ((sortByTs (stateGroup df s)).headD defaultR).Batt_Energy_J = .fin d) :
    ∃ res, lookupState (analyze_energy_consumption df) s = some res ∧
      res.duration_s = 0 ∧
      res.batt_power_from_energy_mW = PF.pinf := by
  have hmem : s ∈ uniqueStates df := hs0 ▸ mem_uniqueStates_of_mem df r0 hr0
  rw [energy_lookup df s hmem hlen]
  refine ⟨_, rfl, ?_, ?_⟩
  · show (((sortByTs (stateGroup df s)).getLastD defaultR).EntryTimestamp_ms
        - ((sortByTs (stateGroup df s)).headD defaultR).EntryTimestamp_ms) / 1000 = 0
    rw [hts]
    simp
  · have hfield : (energyResultFor (sortByTs (stateGroup df s))).batt_power_from_energy_mW
        = PF.mul (PF.div (PF.sub ((sortByTs (stateGroup df s)).getLastD defaultR).Batt_Energy_J
            ((sortByTs (stateGroup df s)).headD defaultR).Batt_Energy_J)
          (PF.fin ((((sortByTs (stateGroup df s)).getLastD defaultR).EntryTimestamp_ms
            - ((sortByTs (stateGroup df s)).headD defaultR).EntryTimestamp_ms) / 1000)))
          (PF.fin 1000) := rfl
    rw [hfield, hdelta, hts, sub_self, zero_div, PF.div_fin_zero d hd]
    decide


/-- C10 witness: the unguarded division at the concrete zero-duration
group. -/
theorem C10_witness :
    ∃ res, lookupState (analyze_energy_consumption dfW10) "Sustained_SD_Write" = some res ∧
      res.duration_s = 0 ∧
      res.batt_power_from_energy_mW = PF.pinf := by
  have hsort : sortByTs (stateGroup dfW10 "Sustained_SD_Write") = dfW10 := rfl
  refine C10_theorem dfW10 "Sustained_SD_Write" _ (List.mem_cons_self _ _) rfl
    (by decide) (by rw [hsort]; decide) 5 (by norm_num) ?_
  rw [hsort]
  show PF.sub (PF.fin 5) (PF.fin 0) = PF.fin 5
  simp
